import Mathlib

/-!
Verification development for the diem rosetta-proxy construction pipeline
(`src/construction.rs`).  The data model and the operations are translated
from the Rust source into executable Lean definitions; external crates
(`lcs` canonical serialization, the generated transaction-builder, the
`hex` crate, cryptographic primitives) are modelled concretely where a
deterministic codec is specified and as explicit oracle parameters where
the behaviour is opaque cryptography.
-/

deriving instance DecidableEq for Except

namespace RosettaProxy

/-! ## Hex transport codec

Model of the `hex` crate used by the handlers: lowercase hex encoding of a
byte string, and decoding that accepts both upper- and lower-case digits. -/

/-- Lowercase hex digit for a nibble value. -/
def hexDigit (n : Nat) : Char :=
  if n < 10 then Char.ofNat (48 + n) else Char.ofNat (87 + n)

/-- Two lowercase hex characters for one byte. -/
def byteHexChars (b : Nat) : List Char :=
  [hexDigit (b / 16), hexDigit (b % 16)]

/-- Model of `hex::encode`: lowercase hex string of a byte list. -/
def hexEncode (bs : List Nat) : String :=
  String.mk ((bs.map byteHexChars).flatten)

/-- Value of one hex character, accepting both cases. -/
def hexCharVal (c : Char) : Option Nat :=
  if 48 ≤ c.toNat ∧ c.toNat ≤ 57 then some (c.toNat - 48)
  else if 97 ≤ c.toNat ∧ c.toNat ≤ 102 then some (c.toNat - 87)
  else if 65 ≤ c.toNat ∧ c.toNat ≤ 70 then some (c.toNat - 55)
  else none

/-- Decode a list of hex characters, two per byte. -/
def hexPairsToBytes : List Char → Option (List Nat)
  | [] => some []
  | c1 :: c2 :: rest => do
      let h ← hexCharVal c1
      let l ← hexCharVal c2
      let bs ← hexPairsToBytes rest
      pure ((h * 16 + l) :: bs)
  | _ => none

/-- Model of `hex::decode`: bytes of a hex string (fails on odd length or bad digits). -/
def hexDecode (s : String) : Option (List Nat) :=
  hexPairsToBytes s.data

theorem hexCharVal_hexDigit {n : Nat} (h : n < 16) :
    hexCharVal (hexDigit n) = some n := by
  interval_cases n <;> rfl

theorem hexDecode_hexEncode {bs : List Nat} (h : ∀ b ∈ bs, b < 256) :
    hexDecode (hexEncode bs) = some bs := by
  induction bs with
  | nil => rfl
  | cons b tl ih =>
      have hb : b < 256 := h b (List.mem_cons_self _ _)
      have htl : ∀ x ∈ tl, x < 256 := fun x hx => h x (List.mem_cons_of_mem _ hx)
      have h1 : b / 16 < 16 := by omega
      have h2 : b % 16 < 16 := by omega
      have ihd : hexPairsToBytes ((tl.map byteHexChars).flatten) = some tl := ih htl
      simp only [hexDecode, hexEncode, List.map_cons, List.flatten, byteHexChars,
        List.cons_append, List.nil_append] at ihd ⊢
      simp only [hexPairsToBytes, hexCharVal_hexDigit h1, hexCharVal_hexDigit h2,
        Option.bind_eq_bind, Option.some_bind, ihd]
      have hb16 : b / 16 * 16 + b % 16 = b := by omega
      simp [hb16]

/-! ## LCS (canonical serialization) primitive codecs -/

/-- Worker for ULEB128 encoding; the fuel bounds the number of divisions
by 128 and is structurally consumed. -/
def ulebGo : Nat → Nat → List Nat
  | 0, n => [n]
  | fuel + 1, n =>
      if n < 128 then [n] else (n % 128 + 128) :: ulebGo fuel (n / 128)

/-- ULEB128 encoding of a natural number (used by LCS for lengths and
variant indices). -/
def uleb128Encode (n : Nat) : List Nat :=
  ulebGo n n

/-- ULEB128 decoding; returns the value and the remaining bytes. -/
def uleb128Decode : List Nat → Option (Nat × List Nat)
  | [] => none
  | b :: rest =>
      if b < 128 then some (b, rest)
      else
        match uleb128Decode rest with
        | some (n, rest') => some (n * 128 + (b - 128), rest')
        | none => none

theorem ulebGo_roundtrip : ∀ (fuel n : Nat), n ≤ fuel → ∀ rest : List Nat,
    uleb128Decode (ulebGo fuel n ++ rest) = some (n, rest) := by
  intro fuel
  induction fuel with
  | zero =>
      intro n hn rest
      have : n = 0 := by omega
      subst this
      rfl
  | succ fuel ih =>
      intro n hn rest
      by_cases h : n < 128
      · simp [ulebGo, h, uleb128Decode]
      · rw [ulebGo]
        simp only [h, if_false, List.cons_append]
        have hle : n / 128 ≤ fuel := by
          have : n / 128 < n := Nat.div_lt_self (by omega) (by omega)
          omega
        have hge : ¬ (n % 128 + 128 < 128) := by omega
        simp only [uleb128Decode, hge, if_false, ih (n / 128) hle rest]
        have h2 : n / 128 * 128 + (n % 128 + 128 - 128) = n := by omega
        rw [h2]

theorem uleb128_roundtrip (n : Nat) (rest : List Nat) :
    uleb128Decode (uleb128Encode n ++ rest) = some (n, rest) :=
  ulebGo_roundtrip n n (Nat.le_refl n) rest

/-- Little-endian 8-byte encoding of a `u64` value. -/
def u64Encode (n : Nat) : List Nat :=
  [n % 256, n / 256 % 256, n / 65536 % 256, n / 16777216 % 256,
   n / 4294967296 % 256, n / 1099511627776 % 256,
   n / 281474976710656 % 256, n / 72057594037927936 % 256]

/-- Little-endian 8-byte decoding of a `u64` value. -/
def u64Decode : List Nat → Option (Nat × List Nat)
  | b0 :: b1 :: b2 :: b3 :: b4 :: b5 :: b6 :: b7 :: rest =>
      some (b0 + 256 * b1 + 65536 * b2 + 16777216 * b3 + 4294967296 * b4 +
        1099511627776 * b5 + 281474976710656 * b6 + 72057594037927936 * b7, rest)
  | _ => none

theorem u64_roundtrip {n : Nat} (h : n < 18446744073709551616) (rest : List Nat) :
    u64Decode (u64Encode n ++ rest) = some (n, rest) := by
  simp only [u64Encode, List.cons_append, List.nil_append, u64Decode]
  congr 1
  congr 1
  omega

/-- Split off the first `n` bytes, failing when fewer are available. -/
def takeN : Nat → List Nat → Option (List Nat × List Nat)
  | 0, bs => some ([], bs)
  | _ + 1, [] => none
  | n + 1, b :: bs =>
      match takeN n bs with
      | some (xs, r) => some (b :: xs, r)
      | none => none

theorem takeN_append (bs rest : List Nat) :
    takeN bs.length (bs ++ rest) = some (bs, rest) := by
  induction bs with
  | nil => rfl
  | cons b tl ih => simp [takeN, ih]

/-- LCS encoding of a byte vector: ULEB128 length then the raw bytes. -/
def bytesEncode (bs : List Nat) : List Nat :=
  uleb128Encode bs.length ++ bs

/-- LCS decoding of a byte vector. -/
def bytesDecode (bs : List Nat) : Option (List Nat × List Nat) := do
  let (n, r) ← uleb128Decode bs
  takeN n r

theorem bytesDecode_roundtrip (bs rest : List Nat) :
    bytesDecode (bytesEncode bs ++ rest) = some (bs, rest) := by
  simp [bytesDecode, bytesEncode, List.append_assoc, uleb128_roundtrip,
    takeN_append]

/-- LCS encoding of a string: byte vector of its character codes. -/
def stringEncode (s : String) : List Nat :=
  bytesEncode (s.data.map Char.toNat)

/-- LCS decoding of a string. -/
def stringDecode (bs : List Nat) : Option (String × List Nat) := do
  let (cs, r) ← bytesDecode bs
  pure (String.mk (cs.map Char.ofNat), r)

theorem stringDecode_roundtrip (s : String) (rest : List Nat) :
    stringDecode (stringEncode s ++ rest) = some (s, rest) := by
  simp only [stringDecode, stringEncode, bytesDecode_roundtrip,
    Option.bind_eq_bind, Option.some_bind, List.map_map]
  have hmap : ∀ l : List Char, l.map (Char.ofNat ∘ Char.toNat) = l := by
    intro l
    induction l with
    | nil => rfl
    | cons c tl ih => simp [Function.comp, Char.ofNat_toNat, ih]
  simp [hmap]

/-! ## Move transaction data model (`libra_types` / `move_core_types`)

Addresses are 16-byte strings, identifiers and byte blobs are byte lists.
`TypeTag` follows the Move type-tag grammar with the `StructTag` fields
(address, module, name, type parameters) inlined into the `Struct`
constructor. -/

/-- A Move account address: its 16 raw bytes. -/
abbrev AccountAddress := List Nat

/-- Move type tags as serialized in transactions; the `Struct` case carries
the `StructTag` fields address, module, name and type parameters. -/
inductive TypeTag where
  | Bool : TypeTag
  | U8 : TypeTag
  | U64 : TypeTag
  | U128 : TypeTag
  | Address : TypeTag
  | Signer : TypeTag
  | Vector : TypeTag → TypeTag
  | Struct : AccountAddress → List Nat → List Nat → List TypeTag → TypeTag

mutual

/-- Boolean equality on type tags (mirrors the derived `PartialEq`). -/
def typeTagBeq : TypeTag → TypeTag → Bool
  | .Bool, .Bool => true
  | .U8, .U8 => true
  | .U64, .U64 => true
  | .U128, .U128 => true
  | .Address, .Address => true
  | .Signer, .Signer => true
  | .Vector a, .Vector b => typeTagBeq a b
  | .Struct a1 m1 n1 p1, .Struct a2 m2 n2 p2 =>
      a1 == a2 && m1 == m2 && n1 == n2 && typeTagListBeq p1 p2
  | _, _ => false

/-- Boolean equality on lists of type tags. -/
def typeTagListBeq : List TypeTag → List TypeTag → Bool
  | [], [] => true
  | a :: as1, b :: bs1 => typeTagBeq a b && typeTagListBeq as1 bs1
  | _, _ => false

end

/-- Transaction script arguments (`move_core_types::TransactionArgument`). -/
inductive TransactionArgument where
  | U8 : Nat → TransactionArgument
  | U64 : Nat → TransactionArgument
  | U128 : Nat → TransactionArgument
  | Address : AccountAddress → TransactionArgument
  | U8Vector : List Nat → TransactionArgument
  | Bool : Bool → TransactionArgument

/-- A transaction script: compiled code, type arguments, arguments. -/
structure Script where
  code : List Nat
  ty_args : List TypeTag
  args : List TransactionArgument

/-- Transaction payload (`libra_types::transaction::TransactionPayload`).
The `WriteSet` and `Module` contents are never inspected by the proxy and
are modelled as their serialized byte blobs. -/
inductive TransactionPayload where
  | WriteSet : List Nat → TransactionPayload
  | Script : Script → TransactionPayload
  | Module : List Nat → TransactionPayload

/-- A raw (unsigned) transaction (`libra_types::transaction::RawTransaction`). -/
structure RawTransaction where
  sender : AccountAddress
  sequence_number : Nat
  payload : TransactionPayload
  max_gas_amount : Nat
  gas_unit_price : Nat
  gas_currency_code : String
  expiration_timestamp_secs : Nat
  chain_id : Nat

/-- Transaction authenticator: single Ed25519 or multi-agent Ed25519, each
carrying public-key bytes and signature bytes. -/
inductive TransactionAuthenticator where
  | Ed25519 : List Nat → List Nat → TransactionAuthenticator
  | MultiEd25519 : List Nat → List Nat → TransactionAuthenticator

/-- The authentication scheme of an authenticator. -/
def TransactionAuthenticator.isMultiEd25519 : TransactionAuthenticator → Bool
  | .MultiEd25519 _ _ => true
  | .Ed25519 _ _ => false

/-- A signed transaction: raw transaction plus authenticator. -/
structure SignedTransaction where
  raw_txn : RawTransaction
  authenticator : TransactionAuthenticator

/-! ## LCS encoding of transactions -/

/-- The 16-byte little-endian encoding of a `u128` value: the two 64-bit
halves in little-endian order. -/
def u128Encode (n : Nat) : List Nat :=
  u64Encode (n % 18446744073709551616) ++ u64Encode (n / 18446744073709551616)

/-- The 16-byte little-endian decoding of a `u128` value. -/
def u128Decode (bs : List Nat) : Option (Nat × List Nat) := do
  let (lo, r1) ← u64Decode bs
  let (hi, r2) ← u64Decode r1
  pure (lo + 18446744073709551616 * hi, r2)

theorem u128_roundtrip {n : Nat}
    (h : n < 340282366920938463463374607431768211456) (rest : List Nat) :
    u128Decode (u128Encode n ++ rest) = some (n, rest) := by
  have h1 : n % 18446744073709551616 < 18446744073709551616 := by omega
  have h2 : n / 18446744073709551616 < 18446744073709551616 := by omega
  simp only [u128Decode, u128Encode, List.append_assoc, u64_roundtrip h1,
    u64_roundtrip h2, Option.some_bind, Option.bind_eq_bind, Option.pure_def]
  have : n % 18446744073709551616 + 18446744073709551616 *
      (n / 18446744073709551616) = n := by omega
  rw [this]

/-- LCS encoding of a type tag: ULEB128 variant index then the fields. -/
def typeTagEncode : TypeTag → List Nat
  | .Bool => [0]
  | .U8 => [1]
  | .U64 => [2]
  | .U128 => [3]
  | .Address => [4]
  | .Signer => [5]
  | .Vector t => 6 :: typeTagEncode t
  | .Struct a m n ps =>
      7 :: (a ++ bytesEncode m ++ bytesEncode n ++ uleb128Encode ps.length ++
        (ps.attach.map (fun x => typeTagEncode x.1)).flatten)
  decreasing_by
    all_goals simp_wf
    all_goals first
      | omega
      | (have hx := List.sizeOf_lt_of_mem x.2
         omega)

mutual

/-- LCS decoding of a type tag, with fuel bounding the nesting depth. -/
def typeTagDecode : Nat → List Nat → Option (TypeTag × List Nat)
  | 0, _ => none
  | _ + 1, [] => none
  | fuel + 1, b :: rest =>
      match b with
      | 0 => some (.Bool, rest)
      | 1 => some (.U8, rest)
      | 2 => some (.U64, rest)
      | 3 => some (.U128, rest)
      | 4 => some (.Address, rest)
      | 5 => some (.Signer, rest)
      | 6 =>
          match typeTagDecode fuel rest with
          | some (t, r) => some (.Vector t, r)
          | none => none
      | 7 => do
          let (a, r1) ← takeN 16 rest
          let (m, r2) ← bytesDecode r1
          let (n, r3) ← bytesDecode r2
          let (k, r4) ← uleb128Decode r3
          let (ps, r5) ← typeTagListDecode fuel k r4
          pure (.Struct a m n ps, r5)
      | _ => none
termination_by fuel _ => (fuel, 0)

/-- LCS decoding of `count` type tags in sequence. -/
def typeTagListDecode : Nat → Nat → List Nat → Option (List TypeTag × List Nat)
  | _, 0, bs => some ([], bs)
  | fuel, k + 1, bs => do
      let (t, r) ← typeTagDecode fuel bs
      let (ts, r') ← typeTagListDecode fuel k r
      pure (t :: ts, r')
termination_by fuel k _ => (fuel, k + 1)

end

/-- LCS encoding of a transaction argument. -/
def txnArgEncode : TransactionArgument → List Nat
  | .U8 v => [0, v]
  | .U64 v => 1 :: u64Encode v
  | .U128 v => 2 :: u128Encode v
  | .Address a => 3 :: a
  | .U8Vector v => 4 :: bytesEncode v
  | .Bool b => [5, if b then 1 else 0]

/-- LCS decoding of a transaction argument. -/
def txnArgDecode : List Nat → Option (TransactionArgument × List Nat)
  | [] => none
  | b :: rest =>
      match b with
      | 0 =>
          match rest with
          | v :: r => some (.U8 v, r)
          | [] => none
      | 1 => do
          let (v, r) ← u64Decode rest
          pure (.U64 v, r)
      | 2 => do
          let (v, r) ← u128Decode rest
          pure (.U128 v, r)
      | 3 => do
          let (a, r) ← takeN 16 rest
          pure (.Address a, r)
      | 4 => do
          let (v, r) ← bytesDecode rest
          pure (.U8Vector v, r)
      | 5 =>
          match rest with
          | 0 :: r => some (.Bool false, r)
          | 1 :: r => some (.Bool true, r)
          | _ => none
      | _ => none

/-- LCS decoding of `count` transaction arguments in sequence. -/
def txnArgListDecode : Nat → List Nat → Option (List TransactionArgument × List Nat)
  | 0, bs => some ([], bs)
  | k + 1, bs => do
      let (a, r) ← txnArgDecode bs
      let (as1, r') ← txnArgListDecode k r
      pure (a :: as1, r')

/-- LCS encoding of a script. -/
def scriptEncode (s : Script) : List Nat :=
  bytesEncode s.code ++
  uleb128Encode s.ty_args.length ++ (s.ty_args.map typeTagEncode).flatten ++
  uleb128Encode s.args.length ++ (s.args.map txnArgEncode).flatten

/-- LCS decoding of a script. -/
def scriptDecode (bs : List Nat) : Option (Script × List Nat) := do
  let (code, r1) ← bytesDecode bs
  let (k, r2) ← uleb128Decode r1
  let (tys, r3) ← typeTagListDecode (r2.length + 1) k r2
  let (m, r4) ← uleb128Decode r3
  let (args, r5) ← txnArgListDecode m r4
  pure (⟨code, tys, args⟩, r5)

/-- LCS encoding of a transaction payload. -/
def payloadEncode : TransactionPayload → List Nat
  | .WriteSet b => 0 :: bytesEncode b
  | .Script s => 1 :: scriptEncode s
  | .Module c => 2 :: bytesEncode c

/-- LCS decoding of a transaction payload. -/
def payloadDecode : List Nat → Option (TransactionPayload × List Nat)
  | [] => none
  | b :: rest =>
      match b with
      | 0 => do
          let (x, r) ← bytesDecode rest
          pure (.WriteSet x, r)
      | 1 => do
          let (s, r) ← scriptDecode rest
          pure (.Script s, r)
      | 2 => do
          let (c, r) ← bytesDecode rest
          pure (.Module c, r)
      | _ => none

/-- LCS encoding of a raw transaction (field order as in the source type). -/
def rawTransactionEncode (t : RawTransaction) : List Nat :=
  t.sender ++ u64Encode t.sequence_number ++ payloadEncode t.payload ++
  u64Encode t.max_gas_amount ++ u64Encode t.gas_unit_price ++
  stringEncode t.gas_currency_code ++ u64Encode t.expiration_timestamp_secs ++
  [t.chain_id]

/-- LCS decoding of a raw transaction, returning the remaining bytes. -/
def rawTransactionDecodeAux (bs : List Nat) : Option (RawTransaction × List Nat) := do
  let (sender, r1) ← takeN 16 bs
  let (seq, r2) ← u64Decode r1
  let (payload, r3) ← payloadDecode r2
  let (maxGas, r4) ← u64Decode r3
  let (price, r5) ← u64Decode r4
  let (code, r6) ← stringDecode r5
  let (expiry, r7) ← u64Decode r6
  match r7 with
  | chain :: r8 => pure (⟨sender, seq, payload, maxGas, price, code, expiry, chain⟩, r8)
  | [] => none

/-- Model of `lcs::from_bytes::<RawTransaction>`: decode and require all bytes consumed. -/
def rawTransactionFromBytes (bs : List Nat) : Option RawTransaction :=
  match rawTransactionDecodeAux bs with
  | some (t, []) => some t
  | _ => none

/-- LCS encoding of a transaction authenticator. -/
def authenticatorEncode : TransactionAuthenticator → List Nat
  | .Ed25519 pk sig => 0 :: (bytesEncode pk ++ bytesEncode sig)
  | .MultiEd25519 pk sig => 1 :: (bytesEncode pk ++ bytesEncode sig)

/-- LCS decoding of a transaction authenticator. -/
def authenticatorDecode : List Nat → Option (TransactionAuthenticator × List Nat)
  | [] => none
  | b :: rest =>
      match b with
      | 0 => do
          let (pk, r1) ← bytesDecode rest
          let (sig, r2) ← bytesDecode r1
          pure (.Ed25519 pk sig, r2)
      | 1 => do
          let (pk, r1) ← bytesDecode rest
          let (sig, r2) ← bytesDecode r1
          pure (.MultiEd25519 pk sig, r2)
      | _ => none

/-- LCS encoding of a signed transaction. -/
def signedTransactionEncode (t : SignedTransaction) : List Nat :=
  rawTransactionEncode t.raw_txn ++ authenticatorEncode t.authenticator

/-- Model of `lcs::from_bytes::<SignedTransaction>`. -/
def signedTransactionFromBytes (bs : List Nat) : Option SignedTransaction :=
  match rawTransactionDecodeAux bs with
  | some (raw, r) =>
      match authenticatorDecode r with
      | some (auth, []) => some ⟨raw, auth⟩
      | _ => none
  | none => none

/-! ## Rosetta API data model (`crate::types`)

Modelled from the spec: the `types` module is not under `src/`; the
structures follow §3 of the specification and their uses in
`construction.rs` / `network.rs`. -/

/-- Rosetta currency: symbol and decimals. -/
structure Currency where
  symbol : String
  decimals : Nat
deriving DecidableEq

/-- Rosetta amount: signed decimal value string plus currency. -/
structure Amount where
  value : String
  currency : Currency
deriving DecidableEq

/-- Rosetta account identifier. -/
structure AccountIdentifier where
  address : String
  sub_account : Option String
deriving DecidableEq

/-- Rosetta operation identifier. -/
structure OperationIdentifier where
  index : Nat
  network_index : Option Nat
deriving DecidableEq

/-- Rosetta operation: the line item of the chain-agnostic transfer model. -/
structure Operation where
  operation_identifier : OperationIdentifier
  related_operations : Option (List OperationIdentifier)
  type_ : String
  status : String
  account : Option AccountIdentifier
  amount : Option Amount
deriving DecidableEq

/-- Rosetta network identifier. -/
structure NetworkIdentifier where
  blockchain : String
  network : String
deriving DecidableEq

/-- Modelled from the spec: Rosetta signature-type marker; the proxy only
accepts `Ed25519`, other markers exist in the Rosetta model. -/
inductive SignatureType where
  | Ed25519 : SignatureType
  | Ecdsa : SignatureType
deriving DecidableEq

/-- Modelled from the spec: Rosetta curve-type marker; the proxy only
accepts `Edwards25519`. -/
inductive CurveType where
  | Edwards25519 : CurveType
  | Secp256k1 : CurveType
deriving DecidableEq

/-- Rosetta public key: hex-encoded bytes plus curve type. -/
structure PublicKey where
  hex_bytes : String
  curve_type : CurveType
deriving DecidableEq

/-- Rosetta signature: signing payload omitted (unused by the handler),
declared signature type, public key, hex-encoded signature bytes. -/
structure Signature where
  signature_type : SignatureType
  public_key : PublicKey
  hex_bytes : String
deriving DecidableEq

/-- Rosetta signing payload produced by the payloads stage. -/
structure SigningPayload where
  address : String
  hex_bytes : String
  signature_type : Option SignatureType
deriving DecidableEq

/-- Metadata carried between the metadata and payloads stages. -/
structure ConstructionMetadata where
  chain_id : Nat
  sequence_number : Nat
deriving DecidableEq

/-- Options produced by preprocess for the metadata stage. -/
structure MetadataOptions where
  sender_address : String
deriving DecidableEq

/-- Modelled from the spec: the error taxonomy of §7 (`crate::error` is not
under `src/`). -/
inductive ApiError where
  | BadNetwork : ApiError
  | AccountNotFound : ApiError
  | HistoricBalancesUnsupported : ApiError
  | BadTransferOperations : String → ApiError
  | BadSignature : ApiError
  | BadSignatureType : ApiError
  | BadSignatureCount : ApiError
  | BadCoin : ApiError
  | BadTransactionScript : ApiError
  | BadTransactionPayload : ApiError
  | DeserializationFailed : String → ApiError
  | GatewayFailure : String → ApiError
deriving DecidableEq

/-- Modelled from the spec: the configured blockchain name constant
(`consts::BLOCKCHAIN`; the `consts` module is not under `src/`). Its exact
value is irrelevant to the claims, which only compare it for equality. -/
def BLOCKCHAIN : String := "diem"

/-- Startup options (`src/options.rs`): chain endpoint and network name. -/
structure Options where
  libra_endpoint : String
  network : String

/-! ## Addresses -/

/-- Lowercase hex rendering of an account address, as used by the
`From<&AccountAddress>` conversions into identifier strings. -/
def addressToHex (a : AccountAddress) : String :=
  hexEncode a

/-- Model of `AccountAddress::from_str`: parse exactly 32 hex characters into the
16 address bytes (external parser from `move_core_types`, modelled as
strict fixed-length hex). -/
def parseAccountAddress (s : String) : Option AccountAddress :=
  if s.length = 32 then hexPairsToBytes s.data else none

theorem hexCharVal_lt {c : Char} {v : Nat} (h : hexCharVal c = some v) : v < 16 := by
  unfold hexCharVal at h
  by_cases h1 : 48 ≤ c.toNat ∧ c.toNat ≤ 57
  · rw [if_pos h1, Option.some.injEq] at h
    omega
  · rw [if_neg h1] at h
    by_cases h2 : 97 ≤ c.toNat ∧ c.toNat ≤ 102
    · rw [if_pos h2, Option.some.injEq] at h
      omega
    · rw [if_neg h2] at h
      by_cases h3 : 65 ≤ c.toNat ∧ c.toNat ≤ 70
      · rw [if_pos h3, Option.some.injEq] at h
        omega
      · rw [if_neg h3] at h
        exact absurd h (by simp)

theorem hexPairsToBytes_spec : ∀ (cs : List Char) (bs : List Nat),
    hexPairsToBytes cs = some bs → 2 * bs.length = cs.length ∧ ∀ b ∈ bs, b < 256
  | [], bs, h => by
      simp only [hexPairsToBytes, Option.some.injEq] at h
      simp [← h]
  | [c], bs, h => by
      simp [hexPairsToBytes] at h
  | c1 :: c2 :: rest, bs, h => by
      simp only [hexPairsToBytes] at h
      cases h1 : hexCharVal c1 with
      | none => simp [h1] at h
      | some v1 =>
        cases h2 : hexCharVal c2 with
        | none => simp [h1, h2] at h
        | some v2 =>
          cases h3 : hexPairsToBytes rest with
          | none => simp [h1, h2, h3] at h
          | some tl =>
            simp only [h1, h2, h3, Option.some_bind, Option.bind_eq_bind,
              Option.pure_def, Option.some.injEq] at h
            have ih := hexPairsToBytes_spec rest tl h3
            have hv1 := hexCharVal_lt h1
            have hv2 := hexCharVal_lt h2
            subst h
            refine ⟨by simp only [List.length_cons]; omega, ?_⟩
            intro b hb
            rcases List.mem_cons.mp hb with hb | hb
            · omega
            · exact ih.2 b hb

theorem parseAccountAddress_spec {s : String} {a : AccountAddress}
    (h : parseAccountAddress s = some a) : a.length = 16 ∧ ∀ b ∈ a, b < 256 := by
  unfold parseAccountAddress at h
  by_cases hl : s.length = 32
  · simp only [hl, if_true] at h
    have hs := hexPairsToBytes_spec s.data a h
    have hd : s.data.length = 32 := hl
    refine ⟨by omega, hs.2⟩
  · simp [hl] at h

/-! ## Signed value strings (`Value`, `construction.rs` lines 455-498) -/

/-- Signed amount value: credit or debit of an unsigned magnitude. -/
inductive Value where
  | Credit : Nat → Value
  | Debit : Nat → Value
deriving DecidableEq

/-- Model of `Value::reconciles`: a credit and a debit of equal magnitude, in either
order. -/
def Value.reconciles : Value → Value → Bool
  | .Credit c, .Debit d => c == d
  | .Debit d, .Credit c => d == c
  | _, _ => false

/-- Model of `Value::amount`: the magnitude. -/
def Value.amount : Value → Nat
  | .Credit v => v
  | .Debit v => v

/-- Numeric value of a list of decimal digit characters. -/
def digitsToNat (ds : List Char) : Nat :=
  ds.foldl (fun acc c => acc * 10 + (c.toNat - 48)) 0

/-- Model of `u64::from_str` (Rust core): an optional leading `+`, then at least one
ASCII decimal digit, and the value must fit in 64 bits. -/
def parseU64 (cs : List Char) : Option Nat :=
  match cs with
  | [] => none
  | c :: rest =>
      let ds := if c = '+' then rest else cs
      if ds.isEmpty then none
      else if ds.all Char.isDigit then
        if digitsToNat ds < 18446744073709551616 then some (digitsToNat ds)
        else none
      else none

/-- Model of `Value::from_str`: empty strings are rejected, a leading `-`
(`strip_prefix`) makes a debit, otherwise a credit; the remainder parses
as a `u64`. -/
def Value.from_str (s : String) : Except String Value :=
  if s = "" then .error "empty input"
  else
    match s.data with
    | [] => .error "invalid number"
    | c :: num =>
        if c = '-' then
          match parseU64 num with
          | some v => .ok (Value.Debit v)
          | none => .error "invalid number"
        else
          match parseU64 (c :: num) with
          | some v => .ok (Value.Credit v)
          | none => .error "invalid number"

theorem string_data_mk (l : List Char) : (String.mk l).data = l := rfl

theorem string_mk_ne_empty {l : List Char} (h : l ≠ []) : String.mk l ≠ "" := by
  intro hcon
  exact h (by simpa using congrArg String.data hcon)

theorem parseU64_digits : ∀ (l : List Char), l ≠ [] → l.all Char.isDigit = true →
    digitsToNat l < 18446744073709551616 → parseU64 l = some (digitsToNat l)
  | [], h, _, _ => absurd rfl h
  | c :: tl, _, hdig, hfit => by
      have hc : c.isDigit = true := by
        have := List.all_eq_true.mp hdig c (List.mem_cons_self c tl)
        exact this
      have hplus : ¬ (c = '+') := by
        intro hcon
        subst hcon
        exact absurd hc (by decide)
      simp [parseU64, hplus, hdig, hfit]

theorem from_str_digits (l : List Char) (hne : l ≠ [])
    (hdig : l.all Char.isDigit = true)
    (hfit : digitsToNat l < 18446744073709551616) :
    Value.from_str (String.mk l) = .ok (Value.Credit (digitsToNat l)) := by
  cases l with
  | nil => exact absurd rfl hne
  | cons c tl =>
      have hc : c.isDigit = true :=
        List.all_eq_true.mp hdig c (List.mem_cons_self c tl)
      have hminus : ¬ (c = '-') := by
        intro hcon
        subst hcon
        exact absurd hc (by decide)
      rw [Value.from_str, if_neg (string_mk_ne_empty (by simp))]
      simp only [string_data_mk]
      simp [hminus, parseU64_digits (c :: tl) (by simp) hdig hfit]

theorem from_str_plus_digits (l : List Char) (hne : l ≠ [])
    (hdig : l.all Char.isDigit = true)
    (hfit : digitsToNat l < 18446744073709551616) :
    Value.from_str (String.mk ('+' :: l)) = .ok (Value.Credit (digitsToNat l)) := by
  rw [Value.from_str, if_neg (string_mk_ne_empty (by simp))]
  simp only [string_data_mk]
  cases l with
  | nil => exact absurd rfl hne
  | cons c tl =>
      simp [parseU64, hdig, hfit, List.isEmpty]

theorem from_str_minus_digits (l : List Char) (hne : l ≠ [])
    (hdig : l.all Char.isDigit = true)
    (hfit : digitsToNat l < 18446744073709551616) :
    Value.from_str (String.mk ('-' :: l)) = .ok (Value.Debit (digitsToNat l)) := by
  rw [Value.from_str, if_neg (string_mk_ne_empty (by simp))]
  simp only [string_data_mk]
  simp [parseU64_digits l hne hdig hfit]

/-! ## Transfer extraction (`construction.rs` lines 500-568) -/

/-- The transfer intent recovered from a pair of operations. -/
structure Transfer where
  sender : AccountAddress
  receiver : AccountAddress
  amount : Nat
  currency : String
deriving DecidableEq

/-- Model of `extract_transfer_from_operations`: validates a two-operation
sentpayment/receivedpayment pair and reduces it to a `Transfer`. -/
def extract_transfer_from_operations (operations : List Operation) :
    Except String Transfer :=
  match operations with
  | [op0, op1] =>
      let is_p2p :=
        (op0.type_ == "sentpayment" && op1.type_ == "receivedpayment") ||
        (op0.type_ == "receivedpayment" && op1.type_ == "sentpayment")
      if !is_p2p then .error "operations don't represent a transfer"
      else
        match op0.account, op0.amount, op1.account, op1.amount with
        | some acc0, some amt0, some acc1, some amt1 =>
            let (send_account, send_amount, recv_account, recv_amount) :=
              if op0.type_ == "sentpayment" then (acc0, amt0, acc1, amt1)
              else (acc1, amt1, acc0, amt0)
            if send_amount.currency ≠ recv_amount.currency then
              .error "mismatched currencies in ops"
            else
              match Value.from_str send_amount.value with
              | .error e => .error e
              | .ok send_value =>
                match Value.from_str recv_amount.value with
                | .error e => .error e
                | .ok recv_value =>
                  match send_value with
                  | .Credit _ => .error "can't send negative amounts"
                  | .Debit d =>
                    if !(Value.reconciles (.Debit d) recv_value) then
                      .error "send and recv amounts don't net out"
                    else
                      match parseAccountAddress send_account.address with
                      | none => .error "invalid account address"
                      | some sender =>
                        match parseAccountAddress recv_account.address with
                        | none => .error "invalid account address"
                        | some receiver =>
                          .ok ⟨sender, receiver, (Value.Debit d).amount,
                            send_amount.currency.symbol⟩
        | _, _, _, _ => .error "accounts/amounts missing"
  | _ => .error "wrong number of ops"

/-! ## Chain constants and the generated script builder -/

/-- The core code address `0x1` (`AccountAddress::from_hex_literal("0x1")`:
15 zero bytes then `0x01`). -/
def coreCodeAddress : AccountAddress :=
  [0, 0, 0, 0, 0, 0, 0, 0, 0, 0, 0, 0, 0, 0, 0, 1]

/-- The byte string of the identifier `Coin1`. -/
def coin1Ident : List Nat := [67, 111, 105, 110, 49]

/-- Model of `coins::coin1_tmp_tag()`: the type tag `0x1::Coin1::Coin1`. -/
def coin1_tmp_tag : TypeTag :=
  TypeTag.Struct coreCodeAddress coin1Ident coin1Ident []

/-- Modelled from the spec: the compiled Move bytecode of the
peer-to-peer-with-metadata script from the generated transaction builder
(`transaction_builder_generated::stdlib`, external to the repository).
Only its role as a fixed distinguished byte string matters; it is modelled
as the four-byte Move magic. -/
def peerToPeerWithMetadataCode : List Nat := [161, 28, 235, 11]

/-- Modelled from the spec: `RawTransactionHasher::seed()`, the fixed
domain-separation prefix mixed into the bytes to sign (an external
cryptographic constant; modelled as a fixed 32-byte string). -/
def rawTransactionHasherSeed : List Nat :=
  (List.range 32).map (fun i => (7 * i + 13) % 256)

/-- Model of `stdlib::encode_peer_to_peer_with_metadata_script`: builds the script
with the compiled code, the currency type argument and the four arguments
payee, amount, metadata, metadata signature. -/
def encode_peer_to_peer_with_metadata_script (currency : TypeTag)
    (payee : AccountAddress) (amount : Nat)
    (metadata : List Nat) (metadata_signature : List Nat) : Script :=
  { code := peerToPeerWithMetadataCode
    ty_args := [currency]
    args := [TransactionArgument.Address payee, TransactionArgument.U64 amount,
      TransactionArgument.U8Vector metadata,
      TransactionArgument.U8Vector metadata_signature] }

/-- The script calls recognized by the generated decoder that the proxy
inspects; only the peer-to-peer-with-metadata shape is relevant. -/
inductive ScriptCall where
  | PeerToPeerWithMetadata : TypeTag → AccountAddress → Nat → List Nat →
      List Nat → ScriptCall

/-- Model of `ScriptCall::decode`: recognizes the compiled peer-to-peer code and the
argument shape `[Address payee, U64 amount, U8Vector m, U8Vector ms]` with
exactly one type argument. -/
def scriptCallDecode (s : Script) : Option ScriptCall :=
  if s.code = peerToPeerWithMetadataCode then
    match s.ty_args, s.args with
    | [c], [TransactionArgument.Address payee, TransactionArgument.U64 amount,
        TransactionArgument.U8Vector m, TransactionArgument.U8Vector ms] =>
        some (ScriptCall.PeerToPeerWithMetadata c payee amount m ms)
    | _, _ => none
  else none

/-! ## Construction pipeline requests and responses -/

/-- Request of `/construction/derive`. -/
structure ConstructionDeriveRequest where
  network_identifier : NetworkIdentifier
  public_key : PublicKey

/-- Response of `/construction/derive`. -/
structure ConstructionDeriveResponse where
  account_identifier : AccountIdentifier
deriving DecidableEq

/-- Request of `/construction/preprocess`. -/
structure ConstructionPreprocessRequest where
  network_identifier : NetworkIdentifier
  operations : List Operation

/-- Response of `/construction/preprocess`. -/
structure ConstructionPreprocessResponse where
  options : MetadataOptions
deriving DecidableEq

/-- Request of `/construction/metadata`. -/
structure ConstructionMetadataRequest where
  network_identifier : NetworkIdentifier
  options : MetadataOptions

/-- Response of `/construction/metadata`. -/
structure ConstructionMetadataResponse where
  metadata : ConstructionMetadata
deriving DecidableEq

/-- Request of `/construction/payloads`. -/
structure ConstructionPayloadsRequest where
  network_identifier : NetworkIdentifier
  operations : List Operation
  metadata : ConstructionMetadata

/-- Response of `/construction/payloads`. -/
structure ConstructionPayloadsResponse where
  unsigned_transaction : String
  payloads : List SigningPayload
deriving DecidableEq

/-- Request of `/construction/parse`. -/
structure ConstructionParseRequest where
  network_identifier : NetworkIdentifier
  signed : Bool
  transaction : String

/-- Response of `/construction/parse`. -/
structure ConstructionParseResponse where
  operations : List Operation
  account_identifier_signers : List AccountIdentifier
deriving DecidableEq

/-- Request of `/construction/combine`. -/
structure ConstructionCombineRequest where
  network_identifier : NetworkIdentifier
  unsigned_transaction : String
  signatures : List Signature

/-- Response of `/construction/combine`. -/
structure ConstructionCombineResponse where
  signed_transaction : String
deriving DecidableEq

/-- Request of `/construction/hash`. -/
structure ConstructionHashRequest where
  network_identifier : NetworkIdentifier
  signed_transaction : String

/-- Request of `/construction/submit`. -/
structure ConstructionSubmitRequest where
  network_identifier : NetworkIdentifier
  signed_transaction : String

/-- A transaction identifier: the canonical hash string. -/
structure TransactionIdentifier where
  hash : String
deriving DecidableEq

/-- Response carrying one transaction identifier. -/
structure TransactionIdentifierResponse where
  transaction_identifier : TransactionIdentifier
deriving DecidableEq

/-- An account as returned by the chain gateway (the sequence number is the
only field the pipeline reads). -/
structure GatewayAccount where
  sequence_number : Nat

/-- Chain metadata as returned by the chain gateway. -/
structure GatewayMetadata where
  chain_id : Nat

/-! ## Pipeline handlers (`construction.rs`)

The handlers are pure functions of the request, the startup options, and
explicit parameters standing for the external effects the code performs:
the system clock, the chain gateway call results, and the cryptographic
primitives (key parsing, address derivation, signature verification,
transaction hashing). -/

/-- Handler of `/construction/derive` (lines 105-128): network gate, decode the
public key (external: `Ed25519PublicKey::from_encoded_string`), derive the
address from its authentication key (external hash) and render it. -/
def derive (derive_request : ConstructionDeriveRequest) (options : Options)
    (pkFromEncoded : String → Option (List Nat))
    (derivedAddress : List Nat → AccountAddress) :
    Except ApiError ConstructionDeriveResponse :=
  if derive_request.network_identifier.blockchain ≠ BLOCKCHAIN ∨
      derive_request.network_identifier.network ≠ options.network then
    .error ApiError.BadNetwork
  else
    match pkFromEncoded derive_request.public_key.hex_bytes with
    | none => .error (ApiError.DeserializationFailed "Ed25519PublicKey")
    | some pk =>
        .ok { account_identifier :=
          { address := addressToHex (derivedAddress pk), sub_account := none } }

/-- Handler of `/construction/preprocess` (lines 130-148): network gate, extract the
transfer, return the sender address as metadata options. -/
def preprocess (preprocess_request : ConstructionPreprocessRequest)
    (options : Options) : Except ApiError ConstructionPreprocessResponse :=
  if preprocess_request.network_identifier.blockchain ≠ BLOCKCHAIN ∨
      preprocess_request.network_identifier.network ≠ options.network then
    .error ApiError.BadNetwork
  else
    match extract_transfer_from_operations preprocess_request.operations with
    | .error e => .error (ApiError.BadTransferOperations e)
    | .ok transfer =>
        .ok { options := { sender_address := addressToHex transfer.sender } }

/-- Handler of `/construction/metadata` (lines 151-180): network gate, then query the
chain gateway for the account and chain metadata; the gateway call result
is passed explicitly. -/
def metadata (metadata_request : ConstructionMetadataRequest) (options : Options)
    (gateway : Except ApiError (Option GatewayAccount × GatewayMetadata)) :
    Except ApiError ConstructionMetadataResponse :=
  if metadata_request.network_identifier.blockchain ≠ BLOCKCHAIN ∨
      metadata_request.network_identifier.network ≠ options.network then
    .error ApiError.BadNetwork
  else
    match gateway with
    | .error e => .error e
    | .ok (none, _) => .error ApiError.AccountNotFound
    | .ok (some account, md) =>
        .ok { metadata :=
          { chain_id := md.chain_id
            sequence_number := account.sequence_number } }

/-- Handler of `/construction/payloads` (lines 182-252): network gate, extract the
transfer, build the peer-to-peer raw transaction, serialize it, and return
the unsigned transaction with one signing payload of seed-prefixed bytes.
`now_secs` is the current Unix time read from the system clock. -/
def payloads (payloads_request : ConstructionPayloadsRequest) (options : Options)
    (now_secs : Nat) : Except ApiError ConstructionPayloadsResponse :=
  if payloads_request.network_identifier.blockchain ≠ BLOCKCHAIN ∨
      payloads_request.network_identifier.network ≠ options.network then
    .error ApiError.BadNetwork
  else
    match extract_transfer_from_operations payloads_request.operations with
    | .error e => .error (ApiError.BadTransferOperations e)
    | .ok transfer =>
        let sender := transfer.sender
        let max_gas_amount := 10000
        let gas_unit_price := 0
        let gas_currency_code := transfer.currency
        let expiration_timestamp_secs := now_secs + 10
        let currency := TypeTag.Struct coreCodeAddress coin1Ident coin1Ident []
        let payee := transfer.receiver
        let script := encode_peer_to_peer_with_metadata_script currency payee
          transfer.amount [] []
        let raw_transaction : RawTransaction :=
          { sender := sender
            sequence_number := payloads_request.metadata.sequence_number
            payload := TransactionPayload.Script script
            max_gas_amount := max_gas_amount
            gas_unit_price := gas_unit_price
            gas_currency_code := gas_currency_code
            expiration_timestamp_secs := expiration_timestamp_secs
            chain_id := payloads_request.metadata.chain_id }
        let raw_bytes := rawTransactionEncode raw_transaction
        let unsigned_transaction := hexEncode raw_bytes
        let bytes := rawTransactionHasherSeed ++ raw_bytes
        .ok { unsigned_transaction := unsigned_transaction
              payloads := [
                { address := addressToHex sender
                  hex_bytes := hexEncode bytes
                  signature_type := some SignatureType.Ed25519 } ] }

/-- Handler of `/construction/parse` (lines 254-358): network gate; in signed mode
verify the signature (external, passed as `checkSignature`) and reject
multi-signature schemes, in unsigned mode decode a raw transaction; then
require a peer-to-peer script in the supported currency and emit the two
canonical operations. -/
def parse (parse_request : ConstructionParseRequest) (options : Options)
    (checkSignature : SignedTransaction → Bool) :
    Except ApiError ConstructionParseResponse :=
  if parse_request.network_identifier.blockchain ≠ BLOCKCHAIN ∨
      parse_request.network_identifier.network ≠ options.network then
    .error ApiError.BadNetwork
  else
    let step : Except ApiError (RawTransaction × List AccountIdentifier) :=
      if parse_request.signed then
        match hexDecode parse_request.transaction with
        | none => .error (ApiError.DeserializationFailed "hex")
        | some signed_bytes =>
            match signedTransactionFromBytes signed_bytes with
            | none => .error (ApiError.DeserializationFailed "SignedTransaction")
            | some checked_transaction =>
                if !(checkSignature checked_transaction) then
                  .error ApiError.BadSignature
                else if checked_transaction.authenticator.isMultiEd25519 then
                  .error ApiError.BadSignatureType
                else
                  .ok (checked_transaction.raw_txn,
                    [{ address := addressToHex checked_transaction.raw_txn.sender
                       sub_account := none }])
      else
        match hexDecode parse_request.transaction with
        | none => .error (ApiError.DeserializationFailed "hex")
        | some raw_bytes =>
            match rawTransactionFromBytes raw_bytes with
            | none => .error (ApiError.DeserializationFailed "RawTransaction")
            | some raw_transaction => .ok (raw_transaction, [])
    match step with
    | .error e => .error e
    | .ok (raw_transaction, account_identifier_signers) =>
        match raw_transaction.payload with
        | TransactionPayload.Script script =>
            match scriptCallDecode script with
            | some (ScriptCall.PeerToPeerWithMetadata currency payee amount _ _) =>
                if !(typeTagBeq currency coin1_tmp_tag) then
                  .error ApiError.BadCoin
                else
                  .ok { operations := [
                          { operation_identifier := { index := 0, network_index := none }
                            related_operations := none
                            type_ := "sentpayment"
                            status := ""
                            account := some
                              { address := addressToHex raw_transaction.sender
                                sub_account := none }
                            amount := some
                              { value := "-" ++ Nat.repr amount
                                currency := { symbol := "Coin1", decimals := 6 } } },
                          { operation_identifier := { index := 1, network_index := none }
                            related_operations := some [{ index := 0, network_index := none }]
                            type_ := "receivedpayment"
                            status := ""
                            account := some
                              { address := addressToHex payee
                                sub_account := none }
                            amount := some
                              { value := Nat.repr amount
                                currency := { symbol := "Coin1", decimals := 6 } } } ]
                        account_identifier_signers := account_identifier_signers }
            | none => .error ApiError.BadTransactionScript
        | _ => .error ApiError.BadTransactionPayload

/-- Handler of `/construction/combine` (lines 360-401): network gate, decode the
unsigned transaction, require exactly one signature of the Ed25519 kind,
decode key and signature bytes (their cryptographic validity checks are
external, passed as `pkValid` / `sigValid`), and serialize the signed
transaction. -/
def combine (combine_request : ConstructionCombineRequest) (options : Options)
    (pkValid : List Nat → Bool) (sigValid : List Nat → Bool) :
    Except ApiError ConstructionCombineResponse :=
  if combine_request.network_identifier.blockchain ≠ BLOCKCHAIN ∨
      combine_request.network_identifier.network ≠ options.network then
    .error ApiError.BadNetwork
  else
    match hexDecode combine_request.unsigned_transaction with
    | none => .error (ApiError.DeserializationFailed "hex")
    | some raw_bytes =>
        match rawTransactionFromBytes raw_bytes with
        | none => .error (ApiError.DeserializationFailed "RawTransaction")
        | some raw_transaction =>
            match combine_request.signatures with
            | [signature] =>
                if signature.signature_type ≠ SignatureType.Ed25519 ∨
                    signature.public_key.curve_type ≠ CurveType.Edwards25519 then
                  .error ApiError.BadSignatureType
                else
                  match hexDecode signature.public_key.hex_bytes with
                  | none => .error (ApiError.DeserializationFailed "hex")
                  | some pk_bytes =>
                      if !(pkValid pk_bytes) then
                        .error (ApiError.DeserializationFailed "Ed25519PublicKey")
                      else
                        match hexDecode signature.hex_bytes with
                        | none => .error (ApiError.DeserializationFailed "hex")
                        | some sig_bytes =>
                            if !(sigValid sig_bytes) then
                              .error (ApiError.DeserializationFailed "Ed25519Signature")
                            else
                              let st : SignedTransaction :=
                                ⟨raw_transaction,
                                 TransactionAuthenticator.Ed25519 pk_bytes sig_bytes⟩
                              .ok { signed_transaction :=
                                      hexEncode (signedTransactionEncode st) }
            | _ => .error ApiError.BadSignatureCount

/-- Handler of `/construction/hash` (lines 403-425): network gate, decode the signed
transaction, compute its canonical hash (external, passed as `txHash`). -/
def hash (hash_request : ConstructionHashRequest) (options : Options)
    (txHash : SignedTransaction → String) :
    Except ApiError TransactionIdentifierResponse :=
  if hash_request.network_identifier.blockchain ≠ BLOCKCHAIN ∨
      hash_request.network_identifier.network ≠ options.network then
    .error ApiError.BadNetwork
  else
    match hexDecode hash_request.signed_transaction with
    | none => .error (ApiError.DeserializationFailed "hex")
    | some signed_bytes =>
        match signedTransactionFromBytes signed_bytes with
        | none => .error (ApiError.DeserializationFailed "SignedTransaction")
        | some signed_transaction =>
            .ok { transaction_identifier := { hash := txHash signed_transaction } }

/-- Handler of `/construction/submit` (lines 427-453): network gate, decode the signed
transaction, submit it through the gateway (result passed explicitly),
return its hash. -/
def submit (submit_request : ConstructionSubmitRequest) (options : Options)
    (gatewaySubmit : SignedTransaction → Except ApiError Unit)
    (txHash : SignedTransaction → String) :
    Except ApiError TransactionIdentifierResponse :=
  if submit_request.network_identifier.blockchain ≠ BLOCKCHAIN ∨
      submit_request.network_identifier.network ≠ options.network then
    .error ApiError.BadNetwork
  else
    match hexDecode submit_request.signed_transaction with
    | none => .error (ApiError.DeserializationFailed "hex")
    | some signed_bytes =>
        match signedTransactionFromBytes signed_bytes with
        | none => .error (ApiError.DeserializationFailed "SignedTransaction")
        | some signed_transaction =>
            match gatewaySubmit signed_transaction with
            | .error e => .error e
            | .ok _ =>
                .ok { transaction_identifier :=
                  { hash := txHash signed_transaction } }

/-! ## Extraction lemmas -/

theorem extract_transfer_ok
    {sendOp recvOp : Operation} {sendAcc recvAcc : AccountIdentifier}
    {sendAmt recvAmt : Amount} {m : Nat} {sa ra : AccountAddress}
    (hst : sendOp.type_ = "sentpayment") (hrt : recvOp.type_ = "receivedpayment")
    (hsa : sendOp.account = some sendAcc) (hsm : sendOp.amount = some sendAmt)
    (hra : recvOp.account = some recvAcc) (hrm : recvOp.amount = some recvAmt)
    (hcur : sendAmt.currency = recvAmt.currency)
    (hsv : Value.from_str sendAmt.value = .ok (Value.Debit m))
    (hrv : Value.from_str recvAmt.value = .ok (Value.Credit m))
    (hsaddr : parseAccountAddress sendAcc.address = some sa)
    (hraddr : parseAccountAddress recvAcc.address = some ra) :
    extract_transfer_from_operations [sendOp, recvOp] =
      .ok ⟨sa, ra, m, sendAmt.currency.symbol⟩ ∧
    extract_transfer_from_operations [recvOp, sendOp] =
      .ok ⟨sa, ra, m, sendAmt.currency.symbol⟩ := by
  constructor <;>
  · simp [extract_transfer_from_operations, hst, hrt, hsa, hsm, hra, hrm, hcur,
      hsv, hrv, hsaddr, hraddr, Value.reconciles, Value.amount]

theorem extract_transfer_credit_error
    {sendOp recvOp : Operation} {sendAcc recvAcc : AccountIdentifier}
    {sendAmt recvAmt : Amount} {m : Nat} {rv : Value}
    (hst : sendOp.type_ = "sentpayment") (hrt : recvOp.type_ = "receivedpayment")
    (hsa : sendOp.account = some sendAcc) (hsm : sendOp.amount = some sendAmt)
    (hra : recvOp.account = some recvAcc) (hrm : recvOp.amount = some recvAmt)
    (hcur : sendAmt.currency = recvAmt.currency)
    (hsv : Value.from_str sendAmt.value = .ok (Value.Credit m))
    (hrv : Value.from_str recvAmt.value = .ok rv) :
    extract_transfer_from_operations [sendOp, recvOp] =
      .error "can't send negative amounts" ∧
    extract_transfer_from_operations [recvOp, sendOp] =
      .error "can't send negative amounts" := by
  constructor <;>
  · simp [extract_transfer_from_operations, hst, hrt, hsa, hsm, hra, hrm, hcur,
      hsv, hrv]

theorem extract_transfer_credit_fails
    {sendOp recvOp : Operation} {sendAcc recvAcc : AccountIdentifier}
    {sendAmt recvAmt : Amount} {m : Nat}
    (hst : sendOp.type_ = "sentpayment") (hrt : recvOp.type_ = "receivedpayment")
    (hsa : sendOp.account = some sendAcc) (hsm : sendOp.amount = some sendAmt)
    (hra : recvOp.account = some recvAcc) (hrm : recvOp.amount = some recvAmt)
    (hcur : sendAmt.currency = recvAmt.currency)
    (hsv : Value.from_str sendAmt.value = .ok (Value.Credit m)) :
    (∃ e, extract_transfer_from_operations [sendOp, recvOp] = .error e) ∧
    (∃ e, extract_transfer_from_operations [recvOp, sendOp] = .error e) := by
  cases hr : Value.from_str recvAmt.value with
  | error e =>
      constructor <;>
      · refine ⟨e, ?_⟩
        simp [extract_transfer_from_operations, hst, hrt, hsa, hsm, hra, hrm,
          hcur, hsv, hr]
  | ok rv =>
      have h := extract_transfer_credit_error hst hrt hsa hsm hra hrm hcur hsv hr
      exact ⟨⟨_, h.1⟩, ⟨_, h.2⟩⟩

/-- C2: for every 2-operation array with one `sentpayment` and one
`receivedpayment` operation (in either array order), both carrying an
account and an amount, equal currencies, the send value parsing as
`Debit m` and the receive value as `Credit m`, and both addresses parsing
as chain addresses, extraction succeeds with
`Transfer{sender, receiver, m, shared symbol}`, identically for both
array orders. -/
theorem extract_transfer_success_order_independent
    (ops : List Operation) (sendOp recvOp : Operation)
    (sendAcc recvAcc : AccountIdentifier) (sendAmt recvAmt : Amount)
    (m : Nat) (sa ra : AccountAddress)
    (horder : ops = [sendOp, recvOp] ∨ ops = [recvOp, sendOp])
    (hst : sendOp.type_ = "sentpayment") (hrt : recvOp.type_ = "receivedpayment")
    (hsa : sendOp.account = some sendAcc) (hsm : sendOp.amount = some sendAmt)
    (hra : recvOp.account = some recvAcc) (hrm : recvOp.amount = some recvAmt)
    (hcur : sendAmt.currency = recvAmt.currency)
    (hsv : Value.from_str sendAmt.value = .ok (Value.Debit m))
    (hrv : Value.from_str recvAmt.value = .ok (Value.Credit m))
    (hsaddr : parseAccountAddress sendAcc.address = some sa)
    (hraddr : parseAccountAddress recvAcc.address = some ra) :
    extract_transfer_from_operations ops =
      .ok ⟨sa, ra, m, sendAmt.currency.symbol⟩ := by
  have h := extract_transfer_ok hst hrt hsa hsm hra hrm hcur hsv hrv hsaddr hraddr
  rcases horder with h1 | h1 <;> rw [h1]
  · exact h.1
  · exact h.2

/-- Concrete `sentpayment` operation: account `0x..aa`, amount `-1000000`
Coin1. -/
def sampleSendOp : Operation :=
  { operation_identifier := ⟨0, none⟩
    related_operations := none
    type_ := "sentpayment"
    status := ""
    account := some ⟨"000000000000000000000000000000aa", none⟩
    amount := some ⟨"-1000000", ⟨"Coin1", 6⟩⟩ }

/-- Concrete `receivedpayment` operation: account `0x..bb`, amount
`1000000` Coin1. -/
def sampleRecvOp : Operation :=
  { operation_identifier := ⟨1, none⟩
    related_operations := none
    type_ := "receivedpayment"
    status := ""
    account := some ⟨"000000000000000000000000000000bb", none⟩
    amount := some ⟨"1000000", ⟨"Coin1", 6⟩⟩ }

/-- The address bytes of `0x..aa`. -/
def sampleAddrAA : AccountAddress := [0, 0, 0, 0, 0, 0, 0, 0, 0, 0, 0, 0, 0, 0, 0, 170]

/-- The address bytes of `0x..bb`. -/
def sampleAddrBB : AccountAddress := [0, 0, 0, 0, 0, 0, 0, 0, 0, 0, 0, 0, 0, 0, 0, 187]

theorem extract_transfer_success_order_independent_witness :
    extract_transfer_from_operations [sampleSendOp, sampleRecvOp] =
      .ok ⟨sampleAddrAA, sampleAddrBB, 1000000, "Coin1"⟩ :=
  extract_transfer_success_order_independent
    [sampleSendOp, sampleRecvOp] sampleSendOp sampleRecvOp
    ⟨"000000000000000000000000000000aa", none⟩
    ⟨"000000000000000000000000000000bb", none⟩
    ⟨"-1000000", ⟨"Coin1", 6⟩⟩ ⟨"1000000", ⟨"Coin1", 6⟩⟩
    1000000 sampleAddrAA sampleAddrBB
    (Or.inl rfl) rfl rfl rfl rfl rfl rfl rfl
    (by decide) (by decide) (by decide) (by decide)

/-- Concrete `sentpayment` operation whose amount string `1000000` parses
as a credit. -/
def sampleCreditSendOp : Operation :=
  { operation_identifier := ⟨0, none⟩
    related_operations := none
    type_ := "sentpayment"
    status := ""
    account := some ⟨"000000000000000000000000000000aa", none⟩
    amount := some ⟨"1000000", ⟨"Coin1", 6⟩⟩ }

/-- Concrete `sentpayment` operation with an explicit leading plus sign. -/
def samplePlusSendOp : Operation :=
  { operation_identifier := ⟨0, none⟩
    related_operations := none
    type_ := "sentpayment"
    status := ""
    account := some ⟨"000000000000000000000000000000aa", none⟩
    amount := some ⟨"+1000000", ⟨"Coin1", 6⟩⟩ }

/-- Concrete `receivedpayment` operation with an explicit leading plus
sign. -/
def samplePlusRecvOp : Operation :=
  { operation_identifier := ⟨1, none⟩
    related_operations := none
    type_ := "receivedpayment"
    status := ""
    account := some ⟨"000000000000000000000000000000bb", none⟩
    amount := some ⟨"+1000000", ⟨"Coin1", 6⟩⟩ }

/-- C8: for every 2-operation array that passes the shape, presence and
currency checks and whose sentpayment-side amount value parses as a
`Credit`, extraction fails, and whenever the receive-side value parses at
all the failure is exactly the "can't send negative amounts" error; no
`Transfer` is produced. -/
theorem extract_transfer_rejects_credit_send
    (ops : List Operation) (sendOp recvOp : Operation)
    (sendAcc recvAcc : AccountIdentifier) (sendAmt recvAmt : Amount) (m : Nat)
    (horder : ops = [sendOp, recvOp] ∨ ops = [recvOp, sendOp])
    (hst : sendOp.type_ = "sentpayment") (hrt : recvOp.type_ = "receivedpayment")
    (hsa : sendOp.account = some sendAcc) (hsm : sendOp.amount = some sendAmt)
    (hra : recvOp.account = some recvAcc) (hrm : recvOp.amount = some recvAmt)
    (hcur : sendAmt.currency = recvAmt.currency)
    (hsv : Value.from_str sendAmt.value = .ok (Value.Credit m)) :
    (∃ e, extract_transfer_from_operations ops = .error e) ∧
    (∀ rv, Value.from_str recvAmt.value = .ok rv →
      extract_transfer_from_operations ops = .error "can't send negative amounts") := by
  rcases horder with h1 | h1 <;> subst h1
  · exact ⟨(extract_transfer_credit_fails hst hrt hsa hsm hra hrm hcur hsv).1,
      fun rv hrv =>
        (extract_transfer_credit_error hst hrt hsa hsm hra hrm hcur hsv hrv).1⟩
  · exact ⟨(extract_transfer_credit_fails hst hrt hsa hsm hra hrm hcur hsv).2,
      fun rv hrv =>
        (extract_transfer_credit_error hst hrt hsa hsm hra hrm hcur hsv hrv).2⟩

theorem extract_transfer_rejects_credit_send_witness :
    extract_transfer_from_operations [sampleCreditSendOp, sampleRecvOp] =
      .error "can't send negative amounts" :=
  (extract_transfer_rejects_credit_send
    [sampleCreditSendOp, sampleRecvOp] sampleCreditSendOp sampleRecvOp
    ⟨"000000000000000000000000000000aa", none⟩
    ⟨"000000000000000000000000000000bb", none⟩
    ⟨"1000000", ⟨"Coin1", 6⟩⟩ ⟨"1000000", ⟨"Coin1", 6⟩⟩ 1000000
    (Or.inl rfl) rfl rfl rfl rfl rfl rfl rfl (by decide)).2
    (Value.Credit 1000000) (by decide)

/-- C9: `u64` string parsing accepts an explicit leading plus: a digit
string `s` and `"+" ++ s` both parse to `Credit m`; consequently a
receive-side `+m` reconciles with a send-side `-m` and extraction
succeeds, while a send-side `+m` is rejected as a credit. -/
theorem value_parsing_accepts_leading_plus
    (ds : List Char) (hne : ds ≠ []) (hdig : ds.all Char.isDigit = true)
    (hfit : digitsToNat ds < 18446744073709551616)
    (sendOp recvOp sendOp2 recvOp2 : Operation)
    (sendAcc recvAcc sendAcc2 recvAcc2 : AccountIdentifier)
    (sendAmt recvAmt sendAmt2 recvAmt2 : Amount)
    (sa ra : AccountAddress) (m2 : Nat)
    (hst : sendOp.type_ = "sentpayment") (hrt : recvOp.type_ = "receivedpayment")
    (hsa : sendOp.account = some sendAcc) (hsm : sendOp.amount = some sendAmt)
    (hra : recvOp.account = some recvAcc) (hrm : recvOp.amount = some recvAmt)
    (hcur : sendAmt.currency = recvAmt.currency)
    (hsvval : sendAmt.value = String.mk ('-' :: ds))
    (hrvval : recvAmt.value = String.mk ('+' :: ds))
    (hsaddr : parseAccountAddress sendAcc.address = some sa)
    (hraddr : parseAccountAddress recvAcc.address = some ra)
    (hst2 : sendOp2.type_ = "sentpayment") (hrt2 : recvOp2.type_ = "receivedpayment")
    (hsa2 : sendOp2.account = some sendAcc2) (hsm2 : sendOp2.amount = some sendAmt2)
    (hra2 : recvOp2.account = some recvAcc2) (hrm2 : recvOp2.amount = some recvAmt2)
    (hcur2 : sendAmt2.currency = recvAmt2.currency)
    (hsvval2 : sendAmt2.value = String.mk ('+' :: ds))
    (hrv2 : Value.from_str recvAmt2.value = .ok (Value.Credit m2)) :
    Value.from_str (String.mk ds) = .ok (Value.Credit (digitsToNat ds)) ∧
    Value.from_str (String.mk ('+' :: ds)) = .ok (Value.Credit (digitsToNat ds)) ∧
    extract_transfer_from_operations [sendOp, recvOp] =
      .ok ⟨sa, ra, digitsToNat ds, sendAmt.currency.symbol⟩ ∧
    extract_transfer_from_operations [sendOp2, recvOp2] =
      .error "can't send negative amounts" := by
  refine ⟨from_str_digits ds hne hdig hfit,
    from_str_plus_digits ds hne hdig hfit, ?_, ?_⟩
  · exact (extract_transfer_ok hst hrt hsa hsm hra hrm hcur
      (by rw [hsvval]; exact from_str_minus_digits ds hne hdig hfit)
      (by rw [hrvval]; exact from_str_plus_digits ds hne hdig hfit)
      hsaddr hraddr).1
  · exact (extract_transfer_credit_error hst2 hrt2 hsa2 hsm2 hra2 hrm2 hcur2
      (by rw [hsvval2]; exact from_str_plus_digits ds hne hdig hfit) hrv2).1

theorem value_parsing_accepts_leading_plus_witness :
    Value.from_str (String.mk ['1', '0', '0', '0', '0', '0', '0']) =
      .ok (Value.Credit 1000000) ∧
    Value.from_str (String.mk ('+' :: ['1', '0', '0', '0', '0', '0', '0'])) =
      .ok (Value.Credit 1000000) ∧
    extract_transfer_from_operations [sampleSendOp, samplePlusRecvOp] =
      .ok ⟨sampleAddrAA, sampleAddrBB, 1000000, "Coin1"⟩ ∧
    extract_transfer_from_operations [samplePlusSendOp, sampleRecvOp] =
      .error "can't send negative amounts" :=
  value_parsing_accepts_leading_plus
    ['1', '0', '0', '0', '0', '0', '0'] (by decide) (by decide) (by decide)
    sampleSendOp samplePlusRecvOp samplePlusSendOp sampleRecvOp
    ⟨"000000000000000000000000000000aa", none⟩
    ⟨"000000000000000000000000000000bb", none⟩
    ⟨"000000000000000000000000000000aa", none⟩
    ⟨"000000000000000000000000000000bb", none⟩
    ⟨"-1000000", ⟨"Coin1", 6⟩⟩ ⟨"+1000000", ⟨"Coin1", 6⟩⟩
    ⟨"+1000000", ⟨"Coin1", 6⟩⟩ ⟨"1000000", ⟨"Coin1", 6⟩⟩
    sampleAddrAA sampleAddrBB 1000000
    rfl rfl rfl rfl rfl rfl rfl (by decide) (by decide)
    (by decide) (by decide)
    rfl rfl rfl rfl rfl rfl rfl (by decide) (by decide)

/-- The operation fields that transfer extraction inspects. -/
def operationCore (op : Operation) :
    String × Option AccountIdentifier × Option Amount :=
  (op.type_, op.account, op.amount)

/-- C10: transfer extraction depends only on each operation's type,
account and amount: two arrays agreeing position-wise on those fields give
identical extraction results, whatever their operation identifiers,
related operations and statuses. -/
theorem extract_transfer_depends_only_on_core
    (ops1 ops2 : List Operation)
    (h : ops1.map operationCore = ops2.map operationCore) :
    extract_transfer_from_operations ops1 =
      extract_transfer_from_operations ops2 := by
  cases ops1 with
  | nil =>
      cases ops2 with
      | nil => rfl
      | cons a2 t2 => simp at h
  | cons a1 t1 =>
      cases ops2 with
      | nil => simp at h
      | cons a2 t2 =>
          simp only [List.map_cons, List.cons.injEq] at h
          obtain ⟨hcore1, htail⟩ := h
          simp only [operationCore, Prod.mk.injEq] at hcore1
          obtain ⟨ht1, hacc1, hamt1⟩ := hcore1
          cases t1 with
          | nil =>
              cases t2 with
              | nil => rfl
              | cons b2 u2 => simp at htail
          | cons b1 u1 =>
              cases t2 with
              | nil => simp at htail
              | cons b2 u2 =>
                  simp only [List.map_cons, List.cons.injEq] at htail
                  obtain ⟨hcore2, htail2⟩ := htail
                  simp only [operationCore, Prod.mk.injEq] at hcore2
                  obtain ⟨ht2, hacc2, hamt2⟩ := hcore2
                  cases u1 with
                  | nil =>
                      cases u2 with
                      | nil =>
                          simp only [extract_transfer_from_operations,
                            ht1, hacc1, hamt1, ht2, hacc2, hamt2]
                      | cons c2 v2 => simp at htail2
                  | cons c1 v1 =>
                      cases u2 with
                      | nil => simp at htail2
                      | cons c2 v2 => rfl

theorem extract_transfer_depends_only_on_core_witness :
    extract_transfer_from_operations [sampleSendOp, sampleRecvOp] =
      extract_transfer_from_operations
        [{ sampleSendOp with
             operation_identifier := ⟨5, some 7⟩
             related_operations := some [⟨9, none⟩]
             status := "executed" },
         { sampleRecvOp with
             operation_identifier := ⟨6, some 8⟩
             related_operations := some [⟨5, some 7⟩]
             status := "pending" }] :=
  extract_transfer_depends_only_on_core
    [sampleSendOp, sampleRecvOp]
    [{ sampleSendOp with
         operation_identifier := ⟨5, some 7⟩
         related_operations := some [⟨9, none⟩]
         status := "executed" },
     { sampleRecvOp with
         operation_identifier := ⟨6, some 8⟩
         related_operations := some [⟨5, some 7⟩]
         status := "pending" }]
    (by decide)

/-! ## Network gate and combine checks -/

/-- C3: every construction pipeline stage whose request's network
identifier differs from the configured blockchain name or network fails
with `BadNetwork`, whatever the rest of the request and the external
collaborators. -/
theorem construction_stages_reject_bad_network
    (ni : NetworkIdentifier) (options : Options)
    (hbad : ni.blockchain ≠ BLOCKCHAIN ∨ ni.network ≠ options.network)
    (pk : PublicKey) (pkFromEncoded : String → Option (List Nat))
    (derivedAddress : List Nat → AccountAddress)
    (ops : List Operation) (mo : MetadataOptions)
    (gw : Except ApiError (Option GatewayAccount × GatewayMetadata))
    (md : ConstructionMetadata) (now_secs : Nat)
    (signedFlag : Bool) (tx : String)
    (checkSignature : SignedTransaction → Bool)
    (ut : String) (sigs : List Signature)
    (pkValid sigValid : List Nat → Bool)
    (st : String) (txHash : SignedTransaction → String)
    (gatewaySubmit : SignedTransaction → Except ApiError Unit) :
    derive ⟨ni, pk⟩ options pkFromEncoded derivedAddress =
      .error ApiError.BadNetwork ∧
    preprocess ⟨ni, ops⟩ options = .error ApiError.BadNetwork ∧
    metadata ⟨ni, mo⟩ options gw = .error ApiError.BadNetwork ∧
    payloads ⟨ni, ops, md⟩ options now_secs = .error ApiError.BadNetwork ∧
    parse ⟨ni, signedFlag, tx⟩ options checkSignature =
      .error ApiError.BadNetwork ∧
    combine ⟨ni, ut, sigs⟩ options pkValid sigValid =
      .error ApiError.BadNetwork ∧
    hash ⟨ni, st⟩ options txHash = .error ApiError.BadNetwork ∧
    submit ⟨ni, st⟩ options gatewaySubmit txHash =
      .error ApiError.BadNetwork := by
  refine ⟨?_, ?_, ?_, ?_, ?_, ?_, ?_, ?_⟩
  · unfold derive
    rw [if_pos hbad]
  · unfold preprocess
    rw [if_pos hbad]
  · unfold metadata
    rw [if_pos hbad]
  · unfold payloads
    rw [if_pos hbad]
  · unfold parse
    rw [if_pos hbad]
  · unfold combine
    rw [if_pos hbad]
  · unfold hash
    rw [if_pos hbad]
  · unfold submit
    rw [if_pos hbad]

theorem construction_stages_reject_bad_network_witness :
    derive ⟨⟨"bitcoin", "testnet"⟩, ⟨"", CurveType.Edwards25519⟩⟩
        ⟨"http:", "testnet"⟩ (fun _ => none) (fun _ => []) =
      .error ApiError.BadNetwork ∧
    preprocess ⟨⟨"bitcoin", "testnet"⟩, []⟩ ⟨"http:", "testnet"⟩ =
      .error ApiError.BadNetwork ∧
    metadata ⟨⟨"bitcoin", "testnet"⟩, ⟨""⟩⟩ ⟨"http:", "testnet"⟩
        (.ok (none, ⟨0⟩)) = .error ApiError.BadNetwork ∧
    payloads ⟨⟨"bitcoin", "testnet"⟩, [], ⟨0, 0⟩⟩ ⟨"http:", "testnet"⟩ 0 =
      .error ApiError.BadNetwork ∧
    parse ⟨⟨"bitcoin", "testnet"⟩, false, ""⟩ ⟨"http:", "testnet"⟩
        (fun _ => true) = .error ApiError.BadNetwork ∧
    combine ⟨⟨"bitcoin", "testnet"⟩, "", []⟩ ⟨"http:", "testnet"⟩
        (fun _ => true) (fun _ => true) = .error ApiError.BadNetwork ∧
    hash ⟨⟨"bitcoin", "testnet"⟩, ""⟩ ⟨"http:", "testnet"⟩ (fun _ => "") =
      .error ApiError.BadNetwork ∧
    submit ⟨⟨"bitcoin", "testnet"⟩, ""⟩ ⟨"http:", "testnet"⟩
        (fun _ => .ok ()) (fun _ => "") = .error ApiError.BadNetwork :=
  construction_stages_reject_bad_network
    ⟨"bitcoin", "testnet"⟩ ⟨"http:", "testnet"⟩ (by simp [BLOCKCHAIN])
    ⟨"", CurveType.Edwards25519⟩ (fun _ => none) (fun _ => [])
    [] ⟨""⟩ (.ok (none, ⟨0⟩)) ⟨0, 0⟩ 0 false "" (fun _ => true) "" []
    (fun _ => true) (fun _ => true) "" (fun _ => "") (fun _ => .ok ())

/-- Hex rendering of a minimal raw transaction (`Module` payload, all
fields zero), used as a well-formed unsigned transaction in witnesses. -/
def minimalRawTxHex : String :=
  "00000000000000000000000000000000000000000000000002000000000000000000000000000000000000000000000000000000"

/-- The raw transaction that `minimalRawTxHex` decodes to. -/
def minimalRawTx : RawTransaction :=
  { sender := [0, 0, 0, 0, 0, 0, 0, 0, 0, 0, 0, 0, 0, 0, 0, 0]
    sequence_number := 0
    payload := TransactionPayload.Module []
    max_gas_amount := 0
    gas_unit_price := 0
    gas_currency_code := ""
    expiration_timestamp_secs := 0
    chain_id := 0 }

/-- C6 counterexample: a combine request on the correct network with zero
signatures but an undecodable `unsigned_transaction` is rejected with
`DeserializationFailed`, not `BadSignatureCount`: the unsigned transaction
is decoded before the signature count is checked. -/
theorem combine_zero_signatures_not_bad_signature_count :
    combine ⟨⟨BLOCKCHAIN, "testnet"⟩, "", []⟩ ⟨"http:", "testnet"⟩
        (fun _ => true) (fun _ => true) =
      .error (ApiError.DeserializationFailed "RawTransaction") ∧
    combine ⟨⟨BLOCKCHAIN, "testnet"⟩, "", []⟩ ⟨"http:", "testnet"⟩
        (fun _ => true) (fun _ => true) ≠
      .error ApiError.BadSignatureCount := by
  constructor
  · rfl
  · decide

/-- C6 (amended): a combine request on the correct network whose unsigned
transaction hex-decodes and LCS-decodes as a raw transaction and whose
signatures list has length 0 or at least 2 is rejected with
`BadSignatureCount`, whatever the remaining request fields. -/
theorem combine_rejects_bad_signature_count
    (req : ConstructionCombineRequest) (options : Options)
    (pkValid sigValid : List Nat → Bool)
    (raw_bytes : List Nat) (rt : RawTransaction)
    (hnet : req.network_identifier.blockchain = BLOCKCHAIN ∧
      req.network_identifier.network = options.network)
    (hhex : hexDecode req.unsigned_transaction = some raw_bytes)
    (hdec : rawTransactionFromBytes raw_bytes = some rt)
    (hcount : req.signatures.length ≠ 1) :
    combine req options pkValid sigValid = .error ApiError.BadSignatureCount := by
  unfold combine
  rw [if_neg (by simp [hnet.1, hnet.2])]
  simp only [hhex, hdec]
  cases hs : req.signatures with
  | nil => rfl
  | cons s t =>
      cases t with
      | nil =>
          rw [hs] at hcount
          simp at hcount
      | cons s2 t2 => rfl

theorem combine_rejects_bad_signature_count_witness :
    combine ⟨⟨BLOCKCHAIN, "testnet"⟩, minimalRawTxHex, []⟩ ⟨"http:", "testnet"⟩
        (fun _ => true) (fun _ => true) = .error ApiError.BadSignatureCount :=
  combine_rejects_bad_signature_count
    ⟨⟨BLOCKCHAIN, "testnet"⟩, minimalRawTxHex, []⟩ ⟨"http:", "testnet"⟩
    (fun _ => true) (fun _ => true)
    (rawTransactionEncode minimalRawTx) minimalRawTx
    ⟨rfl, rfl⟩ rfl rfl (by decide)

/-- C7: a combine request on the correct network with a well-formed
unsigned transaction and exactly one signature whose declared signature
type is not Ed25519 or whose public key's curve type is not Edwards25519
is rejected with `BadSignatureType`. -/
theorem combine_rejects_bad_signature_type
    (req : ConstructionCombineRequest) (options : Options)
    (pkValid sigValid : List Nat → Bool)
    (raw_bytes : List Nat) (rt : RawTransaction) (sig : Signature)
    (hnet : req.network_identifier.blockchain = BLOCKCHAIN ∧
      req.network_identifier.network = options.network)
    (hhex : hexDecode req.unsigned_transaction = some raw_bytes)
    (hdec : rawTransactionFromBytes raw_bytes = some rt)
    (hsig : req.signatures = [sig])
    (hbad : sig.signature_type ≠ SignatureType.Ed25519 ∨
      sig.public_key.curve_type ≠ CurveType.Edwards25519) :
    combine req options pkValid sigValid = .error ApiError.BadSignatureType := by
  unfold combine
  rw [if_neg (by simp [hnet.1, hnet.2])]
  simp only [hhex, hdec, hsig]
  rw [if_pos hbad]

theorem combine_rejects_bad_signature_type_witness :
    combine ⟨⟨BLOCKCHAIN, "testnet"⟩, minimalRawTxHex,
        [⟨SignatureType.Ecdsa, ⟨"", CurveType.Edwards25519⟩, ""⟩]⟩
      ⟨"http:", "testnet"⟩ (fun _ => true) (fun _ => true) =
      .error ApiError.BadSignatureType :=
  combine_rejects_bad_signature_type
    ⟨⟨BLOCKCHAIN, "testnet"⟩, minimalRawTxHex,
      [⟨SignatureType.Ecdsa, ⟨"", CurveType.Edwards25519⟩, ""⟩]⟩
    ⟨"http:", "testnet"⟩ (fun _ => true) (fun _ => true)
    (rawTransactionEncode minimalRawTx) minimalRawTx
    ⟨SignatureType.Ecdsa, ⟨"", CurveType.Edwards25519⟩, ""⟩
    ⟨rfl, rfl⟩ rfl rfl rfl (Or.inl (by decide))

/-! ## Round-trip lemmas for the serialized peer-to-peer transaction -/

theorem coin1Tag_encode_eq : typeTagEncode coin1_tmp_tag =
    [7, 0, 0, 0, 0, 0, 0, 0, 0, 0, 0, 0, 0, 0, 0, 0, 1,
     5, 67, 111, 105, 110, 49, 5, 67, 111, 105, 110, 49, 0] := by
  simp [typeTagEncode, coin1_tmp_tag, coreCodeAddress, coin1Ident,
    bytesEncode, uleb128Encode, ulebGo]

theorem typeTagDecode_struct_nil (fuel : Nat) (a m n : List Nat) (rest : List Nat)
    (ha : a.length = 16) :
    typeTagDecode (fuel + 1) (typeTagEncode (TypeTag.Struct a m n []) ++ rest) =
      some (TypeTag.Struct a m n [], rest) := by
  rw [typeTagEncode]
  simp only [List.attach_nil, List.map_nil, List.flatten_nil, List.append_nil,
    List.cons_append]
  rw [typeTagDecode]
  simp only [List.append_assoc]
  rw [← ha, takeN_append]
  simp only [Option.some_bind, Option.bind_eq_bind, bytesDecode_roundtrip,
    List.length_nil, uleb128_roundtrip]
  rw [typeTagListDecode]
  simp

theorem typeTagDecode_coin1 (fuel : Nat) (rest : List Nat) :
    typeTagDecode (fuel + 1) (typeTagEncode coin1_tmp_tag ++ rest) =
      some (coin1_tmp_tag, rest) :=
  typeTagDecode_struct_nil fuel coreCodeAddress coin1Ident coin1Ident rest
    (by decide)

theorem txnArgDecode_address (payee rest : List Nat) (h : payee.length = 16) :
    txnArgDecode (txnArgEncode (TransactionArgument.Address payee) ++ rest) =
      some (TransactionArgument.Address payee, rest) := by
  rw [txnArgEncode]
  simp only [List.cons_append]
  rw [txnArgDecode]
  simp only [← h, takeN_append]
  rfl

theorem txnArgDecode_u64 (v : Nat) (rest : List Nat)
    (h : v < 18446744073709551616) :
    txnArgDecode (txnArgEncode (TransactionArgument.U64 v) ++ rest) =
      some (TransactionArgument.U64 v, rest) := by
  rw [txnArgEncode]
  simp only [List.cons_append]
  rw [txnArgDecode]
  simp [u64_roundtrip h]

theorem txnArgDecode_u8vector (bs rest : List Nat) :
    txnArgDecode (txnArgEncode (TransactionArgument.U8Vector bs) ++ rest) =
      some (TransactionArgument.U8Vector bs, rest) := by
  rw [txnArgEncode]
  simp only [List.cons_append]
  rw [txnArgDecode]
  simp [bytesDecode_roundtrip]

/-- The size and byte-length constraints under which an encoded
transaction argument decodes back to itself. -/
def txnArgWF : TransactionArgument → Prop
  | .U8 v => v < 256
  | .U64 v => v < 18446744073709551616
  | .U128 v => v < 340282366920938463463374607431768211456
  | .Address a => a.length = 16
  | .U8Vector _ => True
  | .Bool _ => True

theorem txnArgDecode_encode (a : TransactionArgument) (rest : List Nat)
    (h : txnArgWF a) :
    txnArgDecode (txnArgEncode a ++ rest) = some (a, rest) := by
  cases a with
  | U8 v => rfl
  | U64 v =>
      rw [txnArgEncode]
      simp only [List.cons_append]
      rw [txnArgDecode]
      simp [u64_roundtrip h]
  | U128 v =>
      rw [txnArgEncode]
      simp only [List.cons_append]
      rw [txnArgDecode]
      simp [u128_roundtrip h]
  | Address a =>
      rw [txnArgEncode]
      simp only [List.cons_append]
      rw [txnArgDecode]
      have h16 : a.length = 16 := h
      simp only [← h16, takeN_append]
      rfl
  | U8Vector bs =>
      rw [txnArgEncode]
      simp only [List.cons_append]
      rw [txnArgDecode]
      simp [bytesDecode_roundtrip]
  | Bool b => cases b <;> rfl

theorem txnArgListDecode_encode : ∀ (l : List TransactionArgument)
    (rest : List Nat), (∀ a ∈ l, txnArgWF a) →
    txnArgListDecode l.length ((l.map txnArgEncode).flatten ++ rest) =
      some (l, rest)
  | [], rest, _ => rfl
  | a :: tl, rest, h => by
      simp only [List.map_cons, List.flatten_cons, List.length_cons,
        List.append_assoc]
      rw [txnArgListDecode]
      rw [txnArgDecode_encode a _ (h a (List.mem_cons_self a tl))]
      simp only [Option.some_bind, Option.bind_eq_bind]
      rw [txnArgListDecode_encode tl rest
        (fun x hx => h x (List.mem_cons_of_mem a hx))]
      rfl

theorem typeTagListDecode_coin1_list (fuel : Nat) (rest : List Nat) :
    typeTagListDecode (fuel + 1) (List.length [coin1_tmp_tag])
      (([coin1_tmp_tag].map typeTagEncode).flatten ++ rest) =
      some ([coin1_tmp_tag], rest) := by
  show typeTagListDecode (fuel + 1) (0 + 1)
    ((typeTagEncode coin1_tmp_tag ++ []) ++ rest) = _
  rw [typeTagListDecode]
  simp only [List.append_nil]
  rw [typeTagDecode_coin1]
  simp only [Option.some_bind, Option.bind_eq_bind]
  rw [typeTagListDecode]
  rfl

theorem scriptDecode_p2p (payee md ms : List Nat) (amount : Nat)
    (rest : List Nat) (hp : payee.length = 16)
    (ha : amount < 18446744073709551616) :
    scriptDecode (scriptEncode
        (encode_peer_to_peer_with_metadata_script coin1_tmp_tag payee amount md ms)
      ++ rest) =
      some (encode_peer_to_peer_with_metadata_script coin1_tmp_tag payee amount md ms,
        rest) := by
  rw [scriptDecode, scriptEncode, encode_peer_to_peer_with_metadata_script]
  simp only [List.append_assoc]
  rw [bytesDecode_roundtrip]
  simp only [Option.some_bind, Option.bind_eq_bind]
  rw [uleb128_roundtrip]
  simp only [Option.some_bind]
  rw [typeTagListDecode_coin1_list]
  simp only [Option.some_bind]
  rw [uleb128_roundtrip]
  simp only [Option.some_bind]
  rw [txnArgListDecode_encode _ rest ?hwf]
  case hwf =>
    intro x hx
    simp only [List.mem_cons, List.not_mem_nil, or_false] at hx
    rcases hx with h | h | h | h <;> subst h <;> simp [txnArgWF, hp, ha]
  rfl

/-- The raw peer-to-peer transactions produced by the payloads stage
decode back to themselves. -/
theorem rawTransactionFromBytes_p2p (sender payee md ms : List Nat)
    (seq maxGas price expiry chain amount : Nat) (code : String)
    (hs : sender.length = 16) (hp : payee.length = 16)
    (hseq : seq < 18446744073709551616)
    (hmax : maxGas < 18446744073709551616)
    (hprice : price < 18446744073709551616)
    (hexp : expiry < 18446744073709551616)
    (ha : amount < 18446744073709551616) :
    rawTransactionFromBytes (rawTransactionEncode
      ⟨sender, seq, TransactionPayload.Script
        (encode_peer_to_peer_with_metadata_script coin1_tmp_tag payee amount md ms),
       maxGas, price, code, expiry, chain⟩) =
      some ⟨sender, seq, TransactionPayload.Script
        (encode_peer_to_peer_with_metadata_script coin1_tmp_tag payee amount md ms),
       maxGas, price, code, expiry, chain⟩ := by
  rw [rawTransactionFromBytes, rawTransactionDecodeAux, rawTransactionEncode,
    payloadEncode]
  simp only [List.append_assoc, List.cons_append]
  rw [← hs, takeN_append]
  simp only [Option.some_bind, Option.bind_eq_bind, u64_roundtrip hseq]
  rw [payloadDecode]
  rw [scriptDecode_p2p _ md ms _ _ hp ha]
  simp only [Option.pure_def, Option.some_bind, Option.bind_eq_bind,
    u64_roundtrip hmax, u64_roundtrip hprice, stringDecode_roundtrip,
    u64_roundtrip hexp, List.append_assoc]

/-! ## Byte-range bounds of the encoder (for the hex transport layer) -/

/-- Every element of the byte list is an actual byte. -/
@[reducible]
def allBytesLt (bs : List Nat) : Prop := ∀ b ∈ bs, b < 256

theorem allBytesLt_append {xs ys : List Nat} (hx : allBytesLt xs)
    (hy : allBytesLt ys) : allBytesLt (xs ++ ys) := by
  intro b hb
  rcases List.mem_append.mp hb with h | h
  · exact hx b h
  · exact hy b h

theorem allBytesLt_cons {b : Nat} {bs : List Nat} (hb : b < 256)
    (h : allBytesLt bs) : allBytesLt (b :: bs) := by
  intro x hx
  rcases List.mem_cons.mp hx with h1 | h1
  · omega
  · exact h x h1

theorem allBytesLt_nil : allBytesLt [] := by
  intro x hx
  simp at hx

theorem ulebGo_lt : ∀ (fuel n : Nat), n ≤ fuel → allBytesLt (ulebGo fuel n) := by
  intro fuel
  induction fuel with
  | zero =>
      intro n hn
      have : n = 0 := by omega
      subst this
      intro b hb
      simp [ulebGo] at hb
      omega
  | succ fuel ih =>
      intro n hn
      by_cases h : n < 128
      · intro b hb
        simp [ulebGo, h] at hb
        omega
      · rw [ulebGo, if_neg h]
        refine allBytesLt_cons (by omega) ?_
        have : n / 128 < n := Nat.div_lt_self (by omega) (by omega)
        exact ih (n / 128) (by omega)

theorem uleb128Encode_lt (n : Nat) : allBytesLt (uleb128Encode n) :=
  ulebGo_lt n n (Nat.le_refl n)

theorem u64Encode_lt (n : Nat) : allBytesLt (u64Encode n) := by
  intro b hb
  simp [u64Encode, List.mem_cons] at hb
  omega

theorem bytesEncode_lt {bs : List Nat} (h : allBytesLt bs) :
    allBytesLt (bytesEncode bs) :=
  allBytesLt_append (uleb128Encode_lt _) h

theorem stringEncode_lt {s : String} (h : ∀ c ∈ s.data, c.toNat < 256) :
    allBytesLt (stringEncode s) := by
  refine allBytesLt_append (uleb128Encode_lt _) ?_
  intro b hb
  rcases List.mem_map.mp hb with ⟨c, hc, hcb⟩
  subst hcb
  exact h c hc

theorem rawTransactionEncode_p2p_lt (sender payee md ms : List Nat)
    (seq maxGas price expiry chain amount : Nat) (code : String)
    (hsb : allBytesLt sender) (hpb : allBytesLt payee)
    (hmd : allBytesLt md) (hms : allBytesLt ms)
    (hchain : chain < 256) (hcode : ∀ c ∈ code.data, c.toNat < 256) :
    allBytesLt (rawTransactionEncode
      ⟨sender, seq, TransactionPayload.Script
        (encode_peer_to_peer_with_metadata_script coin1_tmp_tag payee amount md ms),
       maxGas, price, code, expiry, chain⟩) := by
  rw [rawTransactionEncode, payloadEncode, scriptEncode,
    encode_peer_to_peer_with_metadata_script]
  simp only [List.map_cons, List.map_nil, List.flatten_cons, List.flatten_nil,
    List.append_nil, txnArgEncode, coin1Tag_encode_eq]
  intro b hb
  simp only [List.append_assoc, List.cons_append, List.mem_append,
    List.mem_cons, List.not_mem_nil, or_false, List.mem_singleton] at hb
  casesm* _ ∨ _ <;>
    first
      | omega
      | exact hsb _ ‹_›
      | exact hpb _ ‹_›
      | exact bytesEncode_lt hmd _ ‹_›
      | exact bytesEncode_lt hms _ ‹_›
      | exact False.elim ‹False›
      | exact @bytesEncode_lt peerToPeerWithMetadataCode
          (by intro x hx; simp [peerToPeerWithMetadataCode] at hx; omega) _ ‹_›
      | exact u64Encode_lt _ _ ‹_›
      | exact uleb128Encode_lt _ _ ‹_›
      | exact stringEncode_lt hcode _ ‹_›

theorem coin1_beq_self : typeTagBeq coin1_tmp_tag coin1_tmp_tag = true := by
  simp [typeTagBeq, typeTagListBeq, coin1_tmp_tag, coreCodeAddress, coin1Ident]

theorem parse_unsigned_p2p_core
    (ni : NetworkIdentifier) (options : Options)
    (checkSig : SignedTransaction → Bool)
    (sender payee md ms : List Nat)
    (seq maxGas price expiry chain amount : Nat) (code : String)
    (hnet : ¬(ni.blockchain ≠ BLOCKCHAIN ∨ ni.network ≠ options.network))
    (hs : sender.length = 16) (hsb : allBytesLt sender)
    (hp : payee.length = 16) (hpb : allBytesLt payee)
    (hmd : allBytesLt md) (hms : allBytesLt ms)
    (hchain : chain < 256) (hcode : ∀ c ∈ code.data, c.toNat < 256)
    (hseq : seq < 18446744073709551616)
    (hmax : maxGas < 18446744073709551616)
    (hprice : price < 18446744073709551616)
    (hexp : expiry < 18446744073709551616)
    (ha : amount < 18446744073709551616) :
    parse ⟨ni, false, hexEncode (rawTransactionEncode
      ⟨sender, seq, TransactionPayload.Script
        (encode_peer_to_peer_with_metadata_script coin1_tmp_tag payee amount md ms),
       maxGas, price, code, expiry, chain⟩)⟩ options checkSig =
      .ok ⟨[
        { operation_identifier := ⟨0, none⟩
          related_operations := none
          type_ := "sentpayment"
          status := ""
          account := some ⟨addressToHex sender, none⟩
          amount := some ⟨"-" ++ Nat.repr amount, ⟨"Coin1", 6⟩⟩ },
        { operation_identifier := ⟨1, none⟩
          related_operations := some [⟨0, none⟩]
          type_ := "receivedpayment"
          status := ""
          account := some ⟨addressToHex payee, none⟩
          amount := some ⟨Nat.repr amount, ⟨"Coin1", 6⟩⟩ }], []⟩ := by
  rw [parse]
  rw [if_neg hnet]
  simp only [Bool.false_eq_true, if_false]
  rw [hexDecode_hexEncode (rawTransactionEncode_p2p_lt sender payee md ms
    seq maxGas price expiry chain amount code hsb hpb hmd hms hchain hcode)]
  simp only [rawTransactionFromBytes_p2p sender payee md ms seq maxGas price
    expiry chain amount code hs hp hseq hmax hprice hexp ha]
  simp [scriptCallDecode, encode_peer_to_peer_with_metadata_script,
    coin1_beq_self]


theorem parseU64_lt {cs : List Char} {v : Nat} (h : parseU64 cs = some v) :
    v < 18446744073709551616 := by
  cases cs with
  | nil => exact absurd h (by simp [parseU64])
  | cons c rest =>
      rw [parseU64] at h
      repeat' split at h
      all_goals
        first
          | (simp only [Option.some.injEq] at h
             omega)
          | simp at h

theorem from_str_lt {s : String} {v : Value} (h : Value.from_str s = .ok v) :
    v.amount < 18446744073709551616 := by
  rw [Value.from_str] at h
  repeat' split at h
  all_goals
    first
      | (simp only [Except.ok.injEq] at h
         subst h
         exact parseU64_lt (by assumption))
      | simp at h

theorem ite_error_ne_ok {c : Prop} [Decidable c] {e1 e2 : String} {t : Transfer} :
    (if c then Except.error e1 else Except.error e2) ≠
      (Except.ok t : Except String Transfer) := by
  by_cases hc : c
  · simp [hc]
  · simp [hc]

theorem extract_transfer_wf {ops : List Operation} {t : Transfer}
    (h : extract_transfer_from_operations ops = .ok t) :
    t.sender.length = 16 ∧ (∀ b ∈ t.sender, b < 256) ∧
    t.receiver.length = 16 ∧ (∀ b ∈ t.receiver, b < 256) ∧
    t.amount < 18446744073709551616 := by
  unfold extract_transfer_from_operations at h
  repeat' split at h
  all_goals try simp only [] at h
  repeat' split at h
  all_goals
    first
      | (simp at h
         done)
      | (simp only [Except.ok.injEq] at h
         subst h
         exact ⟨(parseAccountAddress_spec (by assumption)).1,
           (parseAccountAddress_spec (by assumption)).2,
           (parseAccountAddress_spec (by assumption)).1,
           (parseAccountAddress_spec (by assumption)).2,
           from_str_lt (by assumption)⟩)

/-- The raw transaction assembled by the payloads stage for a transfer:
peer-to-peer script in the fixed currency, fixed gas policy, ten-second
expiration window, chain id and sequence number from the metadata. -/
def builtRawTransaction (transfer : Transfer) (md : ConstructionMetadata)
    (now_secs : Nat) : RawTransaction :=
  { sender := transfer.sender
    sequence_number := md.sequence_number
    payload := TransactionPayload.Script
      (encode_peer_to_peer_with_metadata_script
        (TypeTag.Struct coreCodeAddress coin1Ident coin1Ident [])
        transfer.receiver transfer.amount [] [])
    max_gas_amount := 10000
    gas_unit_price := 0
    gas_currency_code := transfer.currency
    expiration_timestamp_secs := now_secs + 10
    chain_id := md.chain_id }

theorem payloads_ok (req : ConstructionPayloadsRequest) (options : Options)
    (now_secs : Nat) (t : Transfer)
    (hnet : ¬(req.network_identifier.blockchain ≠ BLOCKCHAIN ∨
      req.network_identifier.network ≠ options.network))
    (hext : extract_transfer_from_operations req.operations = .ok t) :
    payloads req options now_secs = .ok
      { unsigned_transaction :=
          hexEncode (rawTransactionEncode (builtRawTransaction t req.metadata now_secs))
        payloads := [
          { address := addressToHex t.sender
            hex_bytes := hexEncode (rawTransactionHasherSeed ++
              rawTransactionEncode (builtRawTransaction t req.metadata now_secs))
            signature_type := some SignatureType.Ed25519 } ] } := by
  rw [payloads, if_neg hnet]
  simp only [hext]
  rfl

/-- C4: for every successful payloads request, the response carries exactly
one signing payload; its bytes are the fixed domain-separation seed
followed by the canonical serialization of the built raw transaction,
which is bit-for-bit the byte string of the `unsigned_transaction` field;
the payload is tagged with the sender's address and the Ed25519
signature-type marker. -/
theorem payloads_single_seed_prefixed_signing_payload
    (req : ConstructionPayloadsRequest) (options : Options)
    (now_secs : Nat) (t : Transfer)
    (hnet : ¬(req.network_identifier.blockchain ≠ BLOCKCHAIN ∨
      req.network_identifier.network ≠ options.network))
    (hext : extract_transfer_from_operations req.operations = .ok t) :
    ∃ raw_bytes,
      raw_bytes = rawTransactionEncode (builtRawTransaction t req.metadata now_secs) ∧
      payloads req options now_secs = .ok
        { unsigned_transaction := hexEncode raw_bytes
          payloads := [
            { address := addressToHex t.sender
              hex_bytes := hexEncode (rawTransactionHasherSeed ++ raw_bytes)
              signature_type := some SignatureType.Ed25519 } ] } :=
  ⟨rawTransactionEncode (builtRawTransaction t req.metadata now_secs), rfl,
    payloads_ok req options now_secs t hnet hext⟩

theorem payloads_single_seed_prefixed_signing_payload_witness :
    ∃ raw_bytes,
      raw_bytes = rawTransactionEncode (builtRawTransaction
        ⟨sampleAddrAA, sampleAddrBB, 1000000, "Coin1"⟩ ⟨4, 7⟩ 1000) ∧
      payloads ⟨⟨BLOCKCHAIN, "testnet"⟩, [sampleSendOp, sampleRecvOp], ⟨4, 7⟩⟩
          ⟨"http:", "testnet"⟩ 1000 = .ok
        { unsigned_transaction := hexEncode raw_bytes
          payloads := [
            { address := addressToHex sampleAddrAA
              hex_bytes := hexEncode (rawTransactionHasherSeed ++ raw_bytes)
              signature_type := some SignatureType.Ed25519 } ] } :=
  payloads_single_seed_prefixed_signing_payload
    ⟨⟨BLOCKCHAIN, "testnet"⟩, [sampleSendOp, sampleRecvOp], ⟨4, 7⟩⟩
    ⟨"http:", "testnet"⟩ 1000 ⟨sampleAddrAA, sampleAddrBB, 1000000, "Coin1"⟩
    (by decide) (by decide)

/-- C5: for every raw transaction whose payload is a
peer-to-peer-with-metadata script in the supported currency Coin1,
unsigned-mode parse emits exactly two operations: index 0 `sentpayment`
from the sender with amount value `-magnitude`, index 1 `receivedpayment`
to the payee with amount value `+magnitude` and `related_operations =
[0]`; both amounts carry the fixed symbol Coin1 and decimals 6, and the
signer list is empty. -/
theorem parse_unsigned_emits_canonical_operations
    (rt : RawTransaction) (payee md ms : List Nat) (amount : Nat)
    (ni : NetworkIdentifier) (options : Options)
    (checkSig : SignedTransaction → Bool)
    (hnet : ¬(ni.blockchain ≠ BLOCKCHAIN ∨ ni.network ≠ options.network))
    (hpayload : rt.payload = TransactionPayload.Script
      (encode_peer_to_peer_with_metadata_script coin1_tmp_tag payee amount md ms))
    (hs : rt.sender.length = 16) (hsb : allBytesLt rt.sender)
    (hp : payee.length = 16) (hpb : allBytesLt payee)
    (hmd : allBytesLt md) (hms : allBytesLt ms)
    (hchain : rt.chain_id < 256)
    (hcode : ∀ c ∈ rt.gas_currency_code.data, c.toNat < 256)
    (hseq : rt.sequence_number < 18446744073709551616)
    (hmax : rt.max_gas_amount < 18446744073709551616)
    (hprice : rt.gas_unit_price < 18446744073709551616)
    (hexp : rt.expiration_timestamp_secs < 18446744073709551616)
    (ha : amount < 18446744073709551616) :
    parse ⟨ni, false, hexEncode (rawTransactionEncode rt)⟩ options checkSig =
      .ok ⟨[
        { operation_identifier := ⟨0, none⟩
          related_operations := none
          type_ := "sentpayment"
          status := ""
          account := some ⟨addressToHex rt.sender, none⟩
          amount := some ⟨"-" ++ Nat.repr amount, ⟨"Coin1", 6⟩⟩ },
        { operation_identifier := ⟨1, none⟩
          related_operations := some [⟨0, none⟩]
          type_ := "receivedpayment"
          status := ""
          account := some ⟨addressToHex payee, none⟩
          amount := some ⟨Nat.repr amount, ⟨"Coin1", 6⟩⟩ }], []⟩ := by
  obtain ⟨sender, seq, payload, maxGas, price, code, expiry, chain⟩ := rt
  simp only at hpayload hs hsb hchain hcode hseq hmax hprice hexp
  subst hpayload
  exact parse_unsigned_p2p_core ni options checkSig sender payee md ms seq
    maxGas price expiry chain amount code hnet hs hsb hp hpb hmd hms hchain
    hcode hseq hmax hprice hexp ha

theorem parse_unsigned_emits_canonical_operations_witness :
    parse ⟨⟨BLOCKCHAIN, "testnet"⟩, false, hexEncode (rawTransactionEncode
      ⟨[0, 0, 0, 0, 0, 0, 0, 0, 0, 0, 0, 0, 0, 0, 0, 0], 7,
       TransactionPayload.Script (encode_peer_to_peer_with_metadata_script
         coin1_tmp_tag sampleAddrBB 5 [] []),
       10000, 0, "Coin1", 1010, 4⟩)⟩ ⟨"http:", "testnet"⟩ (fun _ => true) =
      .ok ⟨[
        { operation_identifier := ⟨0, none⟩
          related_operations := none
          type_ := "sentpayment"
          status := ""
          account := some
            ⟨addressToHex [0, 0, 0, 0, 0, 0, 0, 0, 0, 0, 0, 0, 0, 0, 0, 0], none⟩
          amount := some ⟨"-" ++ Nat.repr 5, ⟨"Coin1", 6⟩⟩ },
        { operation_identifier := ⟨1, none⟩
          related_operations := some [⟨0, none⟩]
          type_ := "receivedpayment"
          status := ""
          account := some ⟨addressToHex sampleAddrBB, none⟩
          amount := some ⟨Nat.repr 5, ⟨"Coin1", 6⟩⟩ }], []⟩ :=
  parse_unsigned_emits_canonical_operations
    ⟨[0, 0, 0, 0, 0, 0, 0, 0, 0, 0, 0, 0, 0, 0, 0, 0], 7,
     TransactionPayload.Script (encode_peer_to_peer_with_metadata_script
       coin1_tmp_tag sampleAddrBB 5 [] []),
     10000, 0, "Coin1", 1010, 4⟩
    sampleAddrBB [] [] 5 ⟨BLOCKCHAIN, "testnet"⟩ ⟨"http:", "testnet"⟩
    (fun _ => true) (by decide) rfl (by decide) (by decide) (by decide)
    (by decide) (by decide) (by decide) (by decide) (by decide) (by decide)
    (by decide) (by decide) (by decide) (by decide)

/-- C1: building the unsigned transaction from a valid transfer (currency
Coin1) and metadata via payloads, then decoding its bytes via parse in
unsigned mode, yields the original sender, receiver, amount and currency
re-expressed as the canonical two-operation shape (index 0 `sentpayment`
with negated amount, index 1 `receivedpayment`), with an empty signer
list. -/
theorem payloads_parse_roundtrip (req : ConstructionPayloadsRequest)
    (options : Options) (now_secs : Nat) (t : Transfer)
    (checkSig : SignedTransaction → Bool)
    (hnet : ¬(req.network_identifier.blockchain ≠ BLOCKCHAIN ∨
      req.network_identifier.network ≠ options.network))
    (hext : extract_transfer_from_operations req.operations = .ok t)
    (hcur : t.currency = "Coin1")
    (hseq : req.metadata.sequence_number < 18446744073709551616)
    (hchain : req.metadata.chain_id < 256)
    (hexp : now_secs + 10 < 18446744073709551616) :
    ∃ resp, payloads req options now_secs = .ok resp ∧
      parse ⟨req.network_identifier, false, resp.unsigned_transaction⟩ options
          checkSig =
        .ok ⟨[
          { operation_identifier := ⟨0, none⟩
            related_operations := none
            type_ := "sentpayment"
            status := ""
            account := some ⟨addressToHex t.sender, none⟩
            amount := some ⟨"-" ++ Nat.repr t.amount, ⟨"Coin1", 6⟩⟩ },
          { operation_identifier := ⟨1, none⟩
            related_operations := some [⟨0, none⟩]
            type_ := "receivedpayment"
            status := ""
            account := some ⟨addressToHex t.receiver, none⟩
            amount := some ⟨Nat.repr t.amount, ⟨"Coin1", 6⟩⟩ }], []⟩ := by
  have hwf := extract_transfer_wf hext
  refine ⟨_, payloads_ok req options now_secs t hnet hext, ?_⟩
  exact parse_unsigned_p2p_core req.network_identifier options checkSig
    t.sender t.receiver [] [] req.metadata.sequence_number 10000 0
    (now_secs + 10) req.metadata.chain_id t.amount t.currency hnet
    hwf.1 hwf.2.1 hwf.2.2.1 hwf.2.2.2.1 allBytesLt_nil allBytesLt_nil hchain
    (by rw [hcur]; decide) hseq (by norm_num) (by norm_num) hexp hwf.2.2.2.2

theorem payloads_parse_roundtrip_witness :
    ∃ resp,
      payloads ⟨⟨BLOCKCHAIN, "testnet"⟩, [sampleSendOp, sampleRecvOp], ⟨4, 7⟩⟩
          ⟨"http:", "testnet"⟩ 1000 = .ok resp ∧
      parse ⟨⟨BLOCKCHAIN, "testnet"⟩, false, resp.unsigned_transaction⟩
          ⟨"http:", "testnet"⟩ (fun _ => true) =
        .ok ⟨[
          { operation_identifier := ⟨0, none⟩
            related_operations := none
            type_ := "sentpayment"
            status := ""
            account := some ⟨addressToHex sampleAddrAA, none⟩
            amount := some ⟨"-" ++ Nat.repr 1000000, ⟨"Coin1", 6⟩⟩ },
          { operation_identifier := ⟨1, none⟩
            related_operations := some [⟨0, none⟩]
            type_ := "receivedpayment"
            status := ""
            account := some ⟨addressToHex sampleAddrBB, none⟩
            amount := some ⟨Nat.repr 1000000, ⟨"Coin1", 6⟩⟩ }], []⟩ :=
  payloads_parse_roundtrip
    ⟨⟨BLOCKCHAIN, "testnet"⟩, [sampleSendOp, sampleRecvOp], ⟨4, 7⟩⟩
    ⟨"http:", "testnet"⟩ 1000 ⟨sampleAddrAA, sampleAddrBB, 1000000, "Coin1"⟩
    (fun _ => true) (by decide) (by decide) rfl (by decide) (by decide)
    (by decide)

end RosettaProxy
